import Mathlib

/-!
Shallow embedding of the ktwin-operator digital-twin reconcilers.

The embedding models, close to the Go source:
  * `TwinInterfaceReconciler.Reconcile` / `createUpdateTwinInterface` /
    `updateTwinInterface` (internal/controller/dtd/twininterface_controller.go);
  * `TwinInstanceReconciler.Reconcile` / `createUpdateTwinInstance` /
    `updateTwinInstance` (the TwinInstance controller file);
  * the generic cluster client (`Get` / `List` / `Create` / `Update`) as an
    explicit in-memory state with injectable transport faults.

Machine state is a `Cluster` record; every client call is a pure function on
it.  Create is idempotent: creating an object that already exists yields an
`alreadyExists` error and leaves the state unchanged, matching the Kubernetes
API semantics the controllers rely on.
-/

namespace KTwin

/-- Status phase of a twin entity (TwinInterfacePhase / TwinInstancePhase in
api/dtd/v0): unset (pending), Running, or Failed. -/
inductive Phase
  | pending
  | running
  | failed
deriving DecidableEq

/-- Errors returned by the cluster resource client: AlreadyExists (on create of
an existing object), NotFound (on get of a missing object), or a transport
level error carrying an opaque code. -/
inductive Err
  | alreadyExists
  | notFound
  | transport (code : Nat)
deriving DecidableEq

/-- Identity (kind, namespace, name) of an object created through the client
(a Knative Service, a Trigger, or a RabbitMQ Binding). -/
structure ObjRef where
  kind : String
  ns : String
  name : String
deriving DecidableEq

/-- A labelled infrastructure resource (a RabbitMQ Exchange or Queue), looked
up by label selector and never created by the controllers. -/
structure Infra where
  ns : String
  name : String
  labels : List (String × String)
deriving DecidableEq

/-- Logical identity of a twin: its metadata name and namespace. -/
structure TwinId where
  name : String
  ns : String
deriving DecidableEq

/-- A TwinInterface object: metadata name/namespace, labels, whether
`Spec.Service` is non-nil, and the status phase. -/
structure TwinInterface where
  name : String
  ns : String
  labels : List (String × String)
  hasService : Bool
  status : Phase
deriving DecidableEq

/-- Logical identity of a TwinInterface. -/
def TwinInterface.toId (ti : TwinInterface) : TwinId := ⟨ti.name, ti.ns⟩

/-- A TwinInstance object: metadata name/namespace, the declared parent
interface name (`Spec.Interface`), labels, and the status phase. -/
structure TwinInstance where
  name : String
  ns : String
  interfaceName : String
  labels : List (String × String)
  status : Phase
deriving DecidableEq

/-- The in-memory cluster state seen through the resource client, plus
injectable faults: `createFaults` / `getFaults` map object identities to a
transport error code, the three `list*Fault` fields fail the corresponding
List call, and `updateFails` fails the final status Update. -/
structure Cluster where
  objs : List ObjRef
  exchanges : List Infra
  queues : List Infra
  ifaces : List TwinInterface
  insts : List TwinInstance
  createFaults : List (ObjRef × Nat)
  getFaults : List (ObjRef × Nat)
  listEvQFault : Option Nat
  listExFault : Option Nat
  listQFault : Option Nat
  updateFails : Bool
deriving DecidableEq

/-- Look up an injected fault code for an object identity. -/
def lookupFault (fs : List (ObjRef × Nat)) (o : ObjRef) : Option Nat :=
  match fs.find? (fun p => p.1 == o) with
  | some p => some p.2
  | none => none

/-- Client Create: AlreadyExists when the object is present, an injected
transport fault otherwise, else the object is inserted. -/
def createObj (s : Cluster) (o : ObjRef) : Cluster × Option Err :=
  if o ∈ s.objs then (s, some Err.alreadyExists)
  else
    match lookupFault s.createFaults o with
    | some n => (s, some (Err.transport n))
    | none => ({ s with objs := o :: s.objs }, none)

/-- Client Get on a created object (used to re-fetch the Trigger): an injected
fault, NotFound when absent, success otherwise. -/
def getObj (s : Cluster) (o : ObjRef) : Option Err :=
  match lookupFault s.getFaults o with
  | some n => some (Err.transport n)
  | none => if o ∈ s.objs then none else some Err.notFound

/-- Does a label list contain the given key/value pair. -/
def hasLabel (ls : List (String × String)) (k v : String) : Bool :=
  ls.contains (k, v)

/-- Selector for the event-store Queue:
`eventing.knative.dev/trigger = event-store-trigger`, in the namespace. -/
def matchesEvQ (ns : String) (i : Infra) : Bool :=
  i.ns == ns && hasLabel i.labels "eventing.knative.dev/trigger" "event-store-trigger"

/-- Selector for the default broker Exchange:
`eventing.knative.dev/broker = ktwin`, in the namespace. -/
def matchesEx (ns : String) (i : Infra) : Bool :=
  i.ns == ns && hasLabel i.labels "eventing.knative.dev/broker" "ktwin"

/-- Selector for the interface-specific Queue: broker `ktwin` and trigger
equal to the TwinInterface name, in the namespace. -/
def matchesIfaceQ (ns tname : String) (i : Infra) : Bool :=
  i.ns == ns && hasLabel i.labels "eventing.knative.dev/broker" "ktwin"
    && hasLabel i.labels "eventing.knative.dev/trigger" tname

/-- Client List of event-store Queues: on an injected fault the error is
returned with an empty item list, matching the Go call site which only ever
inspects `err` and `Items`. -/
def listEvQ (s : Cluster) (ns : String) : Option Err × List Infra :=
  match s.listEvQFault with
  | some n => (some (Err.transport n), [])
  | none => (none, s.queues.filter (matchesEvQ ns))

/-- Client List of default broker Exchanges. -/
def listEx (s : Cluster) (ns : String) : Option Err × List Infra :=
  match s.listExFault with
  | some n => (some (Err.transport n), [])
  | none => (none, s.exchanges.filter (matchesEx ns))

/-- Client List of interface-specific Queues. -/
def listIfaceQ (s : Cluster) (ns tname : String) : Option Err × List Infra :=
  match s.listQFault with
  | some n => (some (Err.transport n), [])
  | none => (none, s.queues.filter (matchesIfaceQ ns tname))

/-- The guard `err != nil && !errors.IsAlreadyExists(err)` used after every
create call (and after the trigger Get): only such errors are appended. -/
def isHard : Option Err → Bool
  | none => false
  | some Err.alreadyExists => false
  | some _ => true

/-- Append an error to the accumulated `resultErrors` list when it passes the
already-exists guard; the Go code appends at the end of the slice. -/
def appendHard (errs : List (Option Err)) (e : Option Err) : List (Option Err) :=
  if isHard e then errs ++ [e] else errs

/-- The create loop over a generated binding list (`for _, binding := range
bindings`), threading the state and the accumulated error list. -/
def createMany (s : Cluster) (errs : List (Option Err)) : List ObjRef → Cluster × List (Option Err)
  | [] => (s, errs)
  | b :: bs =>
    let r := createObj s b
    createMany r.1 (appendHard errs r.2) bs

/-- Replacement of the stored TwinInterface matching the updated object's
name and namespace by the updated value. -/
def replIface (v : TwinInterface) (i : TwinInterface) : TwinInterface :=
  if i.name = v.name ∧ i.ns = v.ns then v else i

/-- Replacement of the stored TwinInstance matching the updated object's name
and namespace by the updated value. -/
def replInst (v : TwinInstance) (i : TwinInstance) : TwinInstance :=
  if i.name = v.name ∧ i.ns = v.ns then v else i

/-- Client Update of a TwinInterface object (updateTwinInterface): replaces
the stored object with the given value, or fails when `updateFails` is set. -/
def updateIface (s : Cluster) (v : TwinInterface) : Cluster × Option Err :=
  if s.updateFails then (s, some (Err.transport 999))
  else ({ s with ifaces := s.ifaces.map (replIface v) }, none)

/-- Client Update of a TwinInstance object (updateTwinInstance). -/
def updateInst (s : Cluster) (v : TwinInstance) : Cluster × Option Err :=
  if s.updateFails then (s, some (Err.transport 999))
  else ({ s with insts := s.insts.map (replInst v) }, none)

/-- Client Get of a TwinInterface by namespace and name. -/
def findIface (s : Cluster) (ns name : String) : Option TwinInterface :=
  s.ifaces.find? (fun i => i.name == name && i.ns == ns)

/-- Client Get of a TwinInstance by namespace and name. -/
def findInst (s : Cluster) (ns name : String) : Option TwinInstance :=
  s.insts.find? (fun i => i.name == name && i.ns == ns)

/-- Get key used for injected faults on TwinInterface fetches. -/
def ifaceRef (ns name : String) : ObjRef := ⟨"TwinInterface", ns, name⟩

/-- Get key used for injected faults on TwinInstance fetches. -/
def instRef (ns name : String) : ObjRef := ⟨"TwinInstance", ns, name⟩

/-- Modelled from the spec: the generators of pkg/service, pkg/event and the
event-store broker bindings (`GetService`, `GetTwinInterfaceTrigger`,
`GetRelationshipBrokerBindings`, `GetEventStoreBrokerBindings`,
`GetMQQTDispatcherBindings`) are not under src/.  Per §4.1 they are pure,
deterministic, I/O-free functions whose outputs (and the identity of every
generated Binding) are derived from the twin's logical identity together with
the resolved exchange and queue, so they are modelled as arbitrary functions
of exactly those inputs. -/
structure Gen where
  getService : TwinId → ObjRef
  getTrigger : TwinId → ObjRef
  relBindings : TwinId → ObjRef → Infra → Infra → List ObjRef
  esBindings : TwinId → ObjRef → Infra → Infra → List ObjRef
  dispatchBindings : TwinInstance → List ObjRef

/-- The identity label key written by both controllers. -/
def ifaceLabelKey : String := "ktwin/twin-interface"

/-- Result of one TwinInterface reconcile pass: the final cluster state, the
error returned to the caller, the in-memory TwinInterface at return (none if
it was never fetched), the accumulated `resultErrors` list, whether control
reached the phase computation (`len(resultErrors) > 0` check), and whether the
final Update call was issued. -/
structure IfaceOut where
  state : Cluster
  retErr : Option Err
  iface : Option TwinInterface
  errs : List (Option Err)
  completed : Bool
  updateCalled : Bool
deriving DecidableEq

/-- Result of one TwinInstance reconcile pass. -/
structure InstOut where
  state : Cluster
  retErr : Option Err
  inst : Option TwinInstance
  errs : List (Option Err)
  updateCalled : Bool
deriving DecidableEq

/-- The TwinInterface as written back on success: phase Running and the label
map replaced by the identity label. -/
def runningIface (ti : TwinInterface) : TwinInterface :=
  { ti with status := Phase.running, labels := [(ifaceLabelKey, ti.name)] }

/-- Lines 184-202 of the TwinInterface controller: non-empty error list sets
phase Failed and returns the first error without labelling or updating; an
empty list sets Running, replaces the labels with the identity label, and
issues the Update, whose own error is swallowed (nil is returned). -/
def finishIface (s : Cluster) (ti : TwinInterface) (errs : List (Option Err)) : IfaceOut :=
  match errs with
  | e :: rest =>
    { state := s, retErr := e, iface := some { ti with status := Phase.failed },
      errs := e :: rest, completed := true, updateCalled := false }
  | [] =>
    { state := (updateIface s (runningIface ti)).1, retErr := none,
      iface := some (runningIface ti), errs := [], completed := true,
      updateCalled := true }

/-- Lines 78-100 of the TwinInterface controller: create the Knative Service,
create the Trigger, re-fetch the Trigger; each failure passing the
already-exists guard is appended. -/
def phase1 (g : Gen) (s0 : Cluster) (tid : TwinId) : Cluster × List (Option Err) :=
  let r1 := createObj s0 (g.getService tid)
  let errs1 := appendHard [] r1.2
  let trig := g.getTrigger tid
  let r2 := createObj r1.1 trig
  let errs2 := appendHard errs1 r2.2
  let e3 := getObj r2.1 trig
  (r2.1, appendHard errs2 e3)

/-- Lines 159-178: create the relationship bindings and then the event-store
bindings, treating already-exists as success, then compute the phase. -/
def bindPart (g : Gen) (s2 : Cluster) (ti : TwinInterface) (errs4 : List (Option Err))
    (trig : ObjRef) (exch evQ q : Infra) : IfaceOut :=
  let r1 := createMany s2 errs4 (g.relBindings ti.toId trig exch q)
  let r2 := createMany r1.1 r1.2 (g.esBindings ti.toId trig exch evQ)
  finishIface r2.1 ti r2.2

/-- Lines 107-202: list the event-store Queues (on an empty result the List
error is appended and returned immediately), list the default broker
Exchanges (a List error is appended; an empty result appends the error again
and skips binding work), list the interface Queues (an empty result appends
the error and skips binding work), otherwise create the bindings; finally
compute phase and status. -/
def resolveAndBind (g : Gen) (s2 : Cluster) (ti : TwinInterface)
    (errs3 : List (Option Err)) (trig : ObjRef) : IfaceOut :=
  let ev := listEvQ s2 ti.ns
  match ev.2 with
  | [] =>
    { state := s2, retErr := ev.1, iface := some ti, errs := errs3 ++ [ev.1],
      completed := false, updateCalled := false }
  | evQ :: _ =>
    let ex := listEx s2 ti.ns
    let errs4 := if ex.1.isSome then errs3 ++ [ex.1] else errs3
    match ex.2 with
    | [] => finishIface s2 ti (errs4 ++ [ex.1])
    | exch :: _ =>
      let q := listIfaceQ s2 ti.ns ti.name
      match q.2 with
      | [] => finishIface s2 ti (errs4 ++ [q.1])
      | qi :: _ => bindPart g s2 ti errs4 trig exch evQ qi

/-- The body of createUpdateTwinInterface (lines 71-203). -/
def createUpdateTwinInterface (g : Gen) (s0 : Cluster) (ti : TwinInterface) : IfaceOut :=
  if ti.hasService then
    let p := phase1 g s0 ti.toId
    resolveAndBind g p.1 ti p.2 (g.getTrigger ti.toId)
  else
    finishIface s0 ti []

/-- TwinInterfaceReconciler.Reconcile (lines 51-69): fetch the TwinInterface;
NotFound is a benign no-op, any other Get error is returned; otherwise run
createUpdateTwinInterface. -/
def reconcileIface (g : Gen) (s : Cluster) (ns name : String) : IfaceOut :=
  match lookupFault s.getFaults (ifaceRef ns name) with
  | some n =>
    { state := s, retErr := some (Err.transport n), iface := none, errs := [],
      completed := false, updateCalled := false }
  | none =>
    match findIface s ns name with
    | none =>
      { state := s, retErr := none, iface := none, errs := [],
        completed := false, updateCalled := false }
    | some ti => createUpdateTwinInterface g s ti

/-- The TwinInstance as written back on success: phase Running and the label
map replaced by the identity label carrying the instance's own name. -/
def runningInst (inst : TwinInstance) : TwinInstance :=
  { inst with status := Phase.running, labels := [(ifaceLabelKey, inst.name)] }

/-- Lines 94-112 of the TwinInstance controller: phase computation, identity
label, and status update; the label value is `twinInstance.ObjectMeta.Name`
(the instance's own name, line 79). -/
def finishInst (s : Cluster) (inst : TwinInstance) (errs : List (Option Err)) : InstOut :=
  match errs with
  | e :: rest =>
    { state := s, retErr := e, inst := some { inst with status := Phase.failed },
      errs := e :: rest, updateCalled := false }
  | [] =>
    { state := (updateInst s (runningInst inst)).1, retErr := none,
      inst := some (runningInst inst), errs := [], updateCalled := true }

/-- The body of createUpdateTwinInstance (lines 78-113): create every
dispatcher binding, treating already-exists as success, then finish. -/
def createUpdateTwinInstance (g : Gen) (s0 : Cluster) (inst : TwinInstance) : InstOut :=
  let r := createMany s0 [] (g.dispatchBindings inst)
  finishInst r.1 inst r.2

/-- TwinInstanceReconciler.Reconcile (lines 50-76): fetch the TwinInstance
(NotFound is a benign no-op, other errors returned); fetch the parent
TwinInterface by the declared reference, returning any error immediately;
otherwise run createUpdateTwinInstance. -/
def reconcileInst (g : Gen) (s : Cluster) (ns name : String) : InstOut :=
  match lookupFault s.getFaults (instRef ns name) with
  | some n =>
    { state := s, retErr := some (Err.transport n), inst := none, errs := [],
      updateCalled := false }
  | none =>
    match findInst s ns name with
    | none =>
      { state := s, retErr := none, inst := none, errs := [], updateCalled := false }
    | some inst =>
      match lookupFault s.getFaults (ifaceRef inst.ns inst.interfaceName) with
      | some n =>
        { state := s, retErr := some (Err.transport n), inst := some inst,
          errs := [], updateCalled := false }
      | none =>
        match findIface s inst.ns inst.interfaceName with
        | none =>
          { state := s, retErr := some Err.notFound, inst := some inst,
            errs := [], updateCalled := false }
        | some _ => createUpdateTwinInstance g s inst

/-- Number of Binding objects present in the cluster. -/
def countBindings (s : Cluster) : Nat :=
  (s.objs.filter (fun o => o.kind == "Binding")).length

/-- Two cluster states agree on every field the client reads except the
created-object list and the stored twin entities. -/
def sameInfra (t u : Cluster) : Prop :=
  t.exchanges = u.exchanges ∧ t.queues = u.queues ∧
  t.createFaults = u.createFaults ∧ t.getFaults = u.getFaults ∧
  t.listEvQFault = u.listEvQFault ∧ t.listExFault = u.listExFault ∧
  t.listQFault = u.listQFault ∧ t.updateFails = u.updateFails

/-- `Ext t u`: u extends t by objects created through the client: the
infrastructure fields agree, every object of t is in u, and every object of u
is an object of t or one whose create carries no injected fault (the client
never creates an object whose create call is faulted). -/
def Ext (t u : Cluster) : Prop :=
  sameInfra t u ∧ (∀ o, o ∈ t.objs → o ∈ u.objs) ∧
  (∀ o, o ∈ u.objs → o ∈ t.objs ∨ lookupFault t.createFaults o = none)

/-- A concrete generator instance used for witnesses and counterexamples:
object identities derived from the twin identity and the resolved exchange
and queue names, with two relationship bindings and one event-store binding,
matching the shapes in the end-to-end scenario of §8. -/
def sampleGen : Gen where
  getService := fun i => ⟨"Service", i.ns, i.name⟩
  getTrigger := fun i => ⟨"Trigger", i.ns, i.name ++ "-trigger"⟩
  relBindings := fun i _t ex q =>
    [⟨"Binding", i.ns, i.name ++ "-rel1-" ++ ex.name ++ "-" ++ q.name⟩,
     ⟨"Binding", i.ns, i.name ++ "-rel2-" ++ ex.name ++ "-" ++ q.name⟩]
  esBindings := fun i _t ex q =>
    [⟨"Binding", i.ns, i.name ++ "-es-" ++ ex.name ++ "-" ++ q.name⟩]
  dispatchBindings := fun inst => [⟨"Binding", inst.ns, inst.name ++ "-dispatch"⟩]

/-- Concrete TwinInterface fixture: the `temperature-sensor` interface of the
end-to-end scenario, with a declared compute service, a pre-existing label and
an unset status. -/
def ti0 : TwinInterface :=
  ⟨"temperature-sensor", "default", [("old", "label")], true, Phase.pending⟩

/-- Concrete default broker Exchange fixture. -/
def exch0 : Infra :=
  ⟨"default", "ktwin-exchange", [("eventing.knative.dev/broker", "ktwin")]⟩

/-- Concrete interface-specific Queue fixture. -/
def ifaceQ0 : Infra :=
  ⟨"default", "ts-queue",
   [("eventing.knative.dev/broker", "ktwin"),
    ("eventing.knative.dev/trigger", "temperature-sensor")]⟩

/-- Concrete event-store Queue fixture. -/
def evQ0 : Infra :=
  ⟨"default", "es-queue", [("eventing.knative.dev/trigger", "event-store-trigger")]⟩

/-- Baseline fault-free cluster containing the full shared infrastructure and
the `temperature-sensor` TwinInterface. -/
def clBase : Cluster :=
  { objs := [], exchanges := [exch0], queues := [ifaceQ0, evQ0], ifaces := [ti0],
    insts := [], createFaults := [], getFaults := [], listEvQFault := none,
    listExFault := none, listQFault := none, updateFails := false }

/-- Cluster where the event-store Queue is absent but the default broker
Exchange and the interface Queue exist. -/
def clNoEvQ : Cluster := { clBase with queues := [ifaceQ0] }

/-- Cluster with no default broker Exchange but both Queues present. -/
def clNoEx : Cluster := { clBase with exchanges := [] }

/-- Cluster with neither a default broker Exchange nor an event-store Queue. -/
def clNoExNoEvQ : Cluster := { clBase with exchanges := [], queues := [ifaceQ0] }

/-- Full-infrastructure cluster in which the Knative Service create fails with
a transport error. -/
def clSvcFault : Cluster :=
  { clBase with createFaults := [(⟨"Service", "default", "temperature-sensor"⟩, 7)] }

/-- Cluster in which the Knative Service create fails and the default broker
Exchange is absent. -/
def clSvcFaultNoEx : Cluster := { clSvcFault with exchanges := [] }

/-- Full-infrastructure cluster whose status Update call fails. -/
def clUpdateFail : Cluster := { clBase with updateFails := true }

/-- TwinInterface fixture with no declared compute service. -/
def tiNoSvc : TwinInterface :=
  ⟨"temperature-sensor", "default", [("old", "label")], false, Phase.pending⟩

/-- Baseline cluster holding only the no-service interface. -/
def clNoSvc : Cluster := { clBase with ifaces := [tiNoSvc] }

/-- Concrete TwinInstance fixture referencing the `temperature-sensor`
interface; its own name differs from the referenced interface name. -/
def inst0 : TwinInstance :=
  ⟨"room-1", "default", "temperature-sensor", [("old", "label")], Phase.pending⟩

/-- Cluster holding the instance fixture together with its parent interface. -/
def clInst : Cluster := { clBase with insts := [inst0] }

/-- Cluster holding the instance fixture but no TwinInterface at all, so the
parent reference does not resolve. -/
def clInstNoParent : Cluster := { clBase with ifaces := [], insts := [inst0] }

/-- Boolean check that an error list never contains an AlreadyExists entry. -/
def noAE (errs : List (Option Err)) : Bool :=
  errs.all (fun e => !(e == some Err.alreadyExists))

/-- Cluster for the instance reconciler whose status Update call fails. -/
def clInstUF : Cluster := { clInst with updateFails := true }

/-!  ## Structural lemmas about the reconcile outputs  -/

lemma finishIface_updateCalled_retErr (s : Cluster) (ti : TwinInterface)
    (E : List (Option Err)) :
    (finishIface s ti E).updateCalled = true → (finishIface s ti E).retErr = none := by
  cases E <;> simp [finishIface]

lemma finishIface_updateCalled_iface (s : Cluster) (ti : TwinInterface)
    (E : List (Option Err)) :
    (finishIface s ti E).updateCalled = true →
      (finishIface s ti E).iface =
        some { ti with status := Phase.running, labels := [(ifaceLabelKey, ti.name)] } := by
  cases E <;> simp [finishIface, runningIface]

lemma finishInst_updateCalled_retErr (s : Cluster) (i : TwinInstance)
    (E : List (Option Err)) :
    (finishInst s i E).updateCalled = true → (finishInst s i E).retErr = none := by
  cases E <;> simp [finishInst]

lemma finishInst_updateCalled_inst (s : Cluster) (i : TwinInstance)
    (E : List (Option Err)) :
    (finishInst s i E).updateCalled = true →
      (finishInst s i E).inst =
        some { i with status := Phase.running, labels := [(ifaceLabelKey, i.name)] } := by
  cases E <;> simp [finishInst, runningInst]

/-- Every TwinInterface pass either stops at the event-store early return or
ends in the phase/label/update epilogue (`finishIface`). -/
lemma createUpdateIface_out (g : Gen) (s : Cluster) (ti : TwinInterface) :
    (∃ s2 e E, createUpdateTwinInterface g s ti =
      { state := s2, retErr := e, iface := some ti, errs := E ++ [e],
        completed := false, updateCalled := false }) ∨
    (∃ s' E, createUpdateTwinInterface g s ti = finishIface s' ti E) := by
  unfold createUpdateTwinInterface resolveAndBind bindPart
  dsimp only
  split
  · split
    · exact Or.inl ⟨_, _, _, rfl⟩
    · split
      · exact Or.inr ⟨_, _, rfl⟩
      · split
        · exact Or.inr ⟨_, _, rfl⟩
        · exact Or.inr ⟨_, _, rfl⟩
  · exact Or.inr ⟨_, _, rfl⟩

/-- The TwinInstance pass always ends in its epilogue. -/
lemma createUpdateInst_out (g : Gen) (s : Cluster) (i : TwinInstance) :
    ∃ s' E, createUpdateTwinInstance g s i = finishInst s' i E :=
  ⟨_, _, rfl⟩

lemma createUpdateIface_updateCalled_retErr (g : Gen) (s : Cluster) (ti : TwinInterface) :
    (createUpdateTwinInterface g s ti).updateCalled = true →
      (createUpdateTwinInterface g s ti).retErr = none := by
  rcases createUpdateIface_out g s ti with ⟨s2, e, E, h⟩ | ⟨s', E, h⟩
  · rw [h]; intro hc; cases hc
  · rw [h]; exact finishIface_updateCalled_retErr s' ti E

lemma createUpdateInst_updateCalled_retErr (g : Gen) (s : Cluster) (i : TwinInstance) :
    (createUpdateTwinInstance g s i).updateCalled = true →
      (createUpdateTwinInstance g s i).retErr = none := by
  rcases createUpdateInst_out g s i with ⟨s', E, h⟩
  rw [h]; exact finishInst_updateCalled_retErr s' i E

lemma reconcileIface_updateCalled_retErr (g : Gen) (s : Cluster) (ns name : String) :
    (reconcileIface g s ns name).updateCalled = true →
      (reconcileIface g s ns name).retErr = none := by
  unfold reconcileIface
  split
  · intro hc; cases hc
  · split
    · intro hc; cases hc
    · exact createUpdateIface_updateCalled_retErr _ _ _

lemma reconcileInst_updateCalled_retErr (g : Gen) (s : Cluster) (ns name : String) :
    (reconcileInst g s ns name).updateCalled = true →
      (reconcileInst g s ns name).retErr = none := by
  unfold reconcileInst
  split
  · intro hc; cases hc
  · split
    · intro hc; cases hc
    · split
      · intro hc; cases hc
      · split
        · intro hc; cases hc
        · exact createUpdateInst_updateCalled_retErr _ _ _

lemma lookupFault_nil (o : ObjRef) : lookupFault [] o = none := rfl

lemma appendHard_aE (E : List (Option Err)) : appendHard E (some Err.alreadyExists) = E := rfl

lemma appendHard_none (E : List (Option Err)) : appendHard E none = E := rfl

lemma createObj_mem (s : Cluster) (o : ObjRef) (h : o ∈ s.objs) :
    createObj s o = (s, some Err.alreadyExists) := by
  unfold createObj; rw [if_pos h]

lemma createObj_not_mem_clean (s : Cluster) (o : ObjRef) (h : o ∉ s.objs)
    (hf : lookupFault s.createFaults o = none) :
    createObj s o = ({ s with objs := o :: s.objs }, none) := by
  unfold createObj; rw [if_neg h, hf]

/-- Under a fault-free environment the Service/Trigger prologue accumulates no
error, only changes the object list, ensures the Service and the Trigger
exist, and adds nothing else. -/
lemma phase1_clean (g : Gen) (s : Cluster) (tid : TwinId)
    (hcf : s.createFaults = []) (hgf : s.getFaults = []) :
    (phase1 g s tid).2 = [] ∧
    (phase1 g s tid).1 = { s with objs := (phase1 g s tid).1.objs } ∧
    g.getService tid ∈ (phase1 g s tid).1.objs ∧
    g.getTrigger tid ∈ (phase1 g s tid).1.objs ∧
    ∀ x ∈ (phase1 g s tid).1.objs,
      x = g.getService tid ∨ x = g.getTrigger tid ∨ x ∈ s.objs := by
  unfold phase1
  dsimp only
  by_cases h1 : g.getService tid ∈ s.objs
  · rw [createObj_mem s _ h1]
    dsimp only
    rw [appendHard_aE]
    by_cases h2 : g.getTrigger tid ∈ s.objs
    · rw [createObj_mem s _ h2]
      dsimp only
      rw [appendHard_aE]
      have hget : getObj s (g.getTrigger tid) = none := by
        unfold getObj; rw [hgf, lookupFault_nil]; dsimp only; rw [if_pos h2]
      rw [hget, appendHard_none]
      exact ⟨rfl, rfl, h1, h2, fun x hx => Or.inr (Or.inr hx)⟩
    · rw [createObj_not_mem_clean s _ h2 (by rw [hcf]; rfl)]
      dsimp only
      rw [appendHard_none]
      have hget : getObj { s with objs := g.getTrigger tid :: s.objs } (g.getTrigger tid) = none := by
        unfold getObj; dsimp only; rw [hgf, lookupFault_nil]; dsimp only
        rw [if_pos (List.mem_cons_self _ _)]
      rw [hget, appendHard_none]
      refine ⟨rfl, rfl, List.mem_cons_of_mem _ h1, List.mem_cons_self _ _, ?_⟩
      intro x hx
      rcases List.mem_cons.mp hx with h | h
      · exact Or.inr (Or.inl h)
      · exact Or.inr (Or.inr h)
  · rw [createObj_not_mem_clean s _ h1 (by rw [hcf]; rfl)]
    dsimp only
    rw [appendHard_none]
    by_cases h2 : g.getTrigger tid ∈ g.getService tid :: s.objs
    · rw [createObj_mem _ _ h2]
      dsimp only
      rw [appendHard_aE]
      have hget : getObj { s with objs := g.getService tid :: s.objs } (g.getTrigger tid) = none := by
        unfold getObj; dsimp only; rw [hgf, lookupFault_nil]; dsimp only; rw [if_pos h2]
      rw [hget, appendHard_none]
      refine ⟨rfl, rfl, List.mem_cons_self _ _, h2, ?_⟩
      intro x hx
      rcases List.mem_cons.mp hx with h | h
      · exact Or.inl h
      · exact Or.inr (Or.inr h)
    · rw [createObj_not_mem_clean _ _ h2 (by dsimp only; rw [hcf]; rfl)]
      dsimp only
      rw [appendHard_none]
      have hget : getObj { s with objs := g.getTrigger tid :: g.getService tid :: s.objs }
          (g.getTrigger tid) = none := by
        unfold getObj; dsimp only; rw [hgf, lookupFault_nil]; dsimp only
        rw [if_pos (List.mem_cons_self _ _)]
      rw [hget, appendHard_none]
      refine ⟨rfl, rfl, List.mem_cons_of_mem _ (List.mem_cons_self _ _),
        List.mem_cons_self _ _, ?_⟩
      intro x hx
      rcases List.mem_cons.mp hx with h | h
      · exact Or.inr (Or.inl h)
      · rcases List.mem_cons.mp h with h' | h'
        · exact Or.inl h'
        · exact Or.inr (Or.inr h')

lemma isHard_ne_aE (e : Option Err) (h : isHard e = true) :
    e ≠ some Err.alreadyExists := by
  intro hc
  subst hc
  exact absurd h (by decide)

lemma appendHard_no_aE (E : List (Option Err)) (e : Option Err)
    (hE : ∀ x ∈ E, x ≠ some Err.alreadyExists) :
    ∀ x ∈ appendHard E e, x ≠ some Err.alreadyExists := by
  intro x hx
  unfold appendHard at hx
  by_cases hh : isHard e = true
  · rw [if_pos hh] at hx
    rcases List.mem_append.mp hx with h | h
    · exact hE x h
    · rw [List.mem_singleton] at h
      subst h
      exact isHard_ne_aE x hh
  · rw [if_neg hh] at hx
    exact hE x hx

lemma createMany_no_aE (L : List ObjRef) : ∀ (s : Cluster) (E : List (Option Err)),
    (∀ x ∈ E, x ≠ some Err.alreadyExists) →
    ∀ x ∈ (createMany s E L).2, x ≠ some Err.alreadyExists := by
  induction L with
  | nil => exact fun s E hE x hx => hE x hx
  | cons b bs ih =>
    intro s E hE x hx
    exact ih (createObj s b).1 (appendHard E (createObj s b).2)
      (appendHard_no_aE E (createObj s b).2 hE) x hx

lemma phase1_no_aE (g : Gen) (s : Cluster) (tid : TwinId) :
    ∀ x ∈ (phase1 g s tid).2, x ≠ some Err.alreadyExists := by
  unfold phase1
  dsimp only
  exact appendHard_no_aE _ _ (appendHard_no_aE _ _ (appendHard_no_aE _ _
    (fun x hx => by cases hx)))

lemma listEvQ_fst_ne_aE (s : Cluster) (ns : String) :
    (listEvQ s ns).1 ≠ some Err.alreadyExists := by
  unfold listEvQ
  cases s.listEvQFault <;> simp

lemma listEx_fst_ne_aE (s : Cluster) (ns : String) :
    (listEx s ns).1 ≠ some Err.alreadyExists := by
  unfold listEx
  cases s.listExFault <;> simp

lemma listIfaceQ_fst_ne_aE (s : Cluster) (ns tname : String) :
    (listIfaceQ s ns tname).1 ≠ some Err.alreadyExists := by
  unfold listIfaceQ
  cases s.listQFault <;> simp

lemma finishIface_no_aE (s : Cluster) (ti : TwinInterface) (E : List (Option Err))
    (hE : ∀ x ∈ E, x ≠ some Err.alreadyExists) :
    (∀ x ∈ (finishIface s ti E).errs, x ≠ some Err.alreadyExists) ∧
    (finishIface s ti E).retErr ≠ some Err.alreadyExists := by
  cases E with
  | nil => exact ⟨fun x hx => (nomatch hx), by simp [finishIface]⟩
  | cons e r => exact ⟨hE, hE e (List.mem_cons_self e r)⟩

lemma finishInst_no_aE (s : Cluster) (i : TwinInstance) (E : List (Option Err))
    (hE : ∀ x ∈ E, x ≠ some Err.alreadyExists) :
    (∀ x ∈ (finishInst s i E).errs, x ≠ some Err.alreadyExists) ∧
    (finishInst s i E).retErr ≠ some Err.alreadyExists := by
  cases E with
  | nil => exact ⟨fun x hx => (nomatch hx), by simp [finishInst]⟩
  | cons e r => exact ⟨hE, hE e (List.mem_cons_self e r)⟩

lemma resolveAndBind_no_aE (g : Gen) (s2 : Cluster) (ti : TwinInterface)
    (errs3 : List (Option Err)) (trig : ObjRef)
    (h3 : ∀ x ∈ errs3, x ≠ some Err.alreadyExists) :
    (∀ x ∈ (resolveAndBind g s2 ti errs3 trig).errs, x ≠ some Err.alreadyExists) ∧
    (resolveAndBind g s2 ti errs3 trig).retErr ≠ some Err.alreadyExists := by
  unfold resolveAndBind bindPart
  dsimp only
  split
  · constructor
    · intro x hx
      rcases List.mem_append.mp hx with h | h
      · exact h3 x h
      · rw [List.mem_singleton] at h
        subst h
        exact listEvQ_fst_ne_aE s2 ti.ns
    · exact listEvQ_fst_ne_aE s2 ti.ns
  · have h4 : ∀ x ∈ (if (listEx s2 ti.ns).1.isSome = true then
        errs3 ++ [(listEx s2 ti.ns).1] else errs3), x ≠ some Err.alreadyExists := by
      split
      · intro x hx
        rcases List.mem_append.mp hx with h | h
        · exact h3 x h
        · rw [List.mem_singleton] at h
          subst h
          exact listEx_fst_ne_aE s2 ti.ns
      · exact h3
    split
    · apply finishIface_no_aE
      intro x hx
      rcases List.mem_append.mp hx with h | h
      · exact h4 x h
      · rw [List.mem_singleton] at h
        subst h
        exact listEx_fst_ne_aE s2 ti.ns
    · split
      · apply finishIface_no_aE
        intro x hx
        rcases List.mem_append.mp hx with h | h
        · exact h4 x h
        · rw [List.mem_singleton] at h
          subst h
          exact listIfaceQ_fst_ne_aE s2 ti.ns ti.name
      · exact finishIface_no_aE _ ti _
          (createMany_no_aE _ _ _ (createMany_no_aE _ _ _ h4))

lemma createUpdateIface_no_aE (g : Gen) (s : Cluster) (ti : TwinInterface) :
    (∀ x ∈ (createUpdateTwinInterface g s ti).errs, x ≠ some Err.alreadyExists) ∧
    (createUpdateTwinInterface g s ti).retErr ≠ some Err.alreadyExists := by
  unfold createUpdateTwinInterface
  split
  · exact resolveAndBind_no_aE g _ ti _ _ (phase1_no_aE g s ti.toId)
  · exact finishIface_no_aE s ti [] (fun x hx => by cases hx)

lemma createUpdateInst_no_aE (g : Gen) (s : Cluster) (i : TwinInstance) :
    (∀ x ∈ (createUpdateTwinInstance g s i).errs, x ≠ some Err.alreadyExists) ∧
    (createUpdateTwinInstance g s i).retErr ≠ some Err.alreadyExists := by
  unfold createUpdateTwinInstance
  exact finishInst_no_aE _ i _ (createMany_no_aE _ _ _ (fun x hx => by cases hx))

lemma reconcileIface_no_aE (g : Gen) (s : Cluster) (ns name : String) :
    (∀ x ∈ (reconcileIface g s ns name).errs, x ≠ some Err.alreadyExists) ∧
    (reconcileIface g s ns name).retErr ≠ some Err.alreadyExists := by
  unfold reconcileIface
  split
  · exact ⟨fun x hx => (nomatch hx), by simp⟩
  · split
    · exact ⟨fun x hx => (nomatch hx), by simp⟩
    · exact createUpdateIface_no_aE g s _

lemma reconcileInst_no_aE (g : Gen) (s : Cluster) (ns name : String) :
    (∀ x ∈ (reconcileInst g s ns name).errs, x ≠ some Err.alreadyExists) ∧
    (reconcileInst g s ns name).retErr ≠ some Err.alreadyExists := by
  unfold reconcileInst
  split
  · exact ⟨fun x hx => (nomatch hx), by simp⟩
  · split
    · exact ⟨fun x hx => (nomatch hx), by simp⟩
    · split
      · exact ⟨fun x hx => (nomatch hx), by simp⟩
      · split
        · exact ⟨fun x hx => (nomatch hx), by simp⟩
        · exact createUpdateInst_no_aE g s _

/-!  ## Extension order between cluster states and replay lemmas  -/

lemma sameInfra_refl (t : Cluster) : sameInfra t t :=
  ⟨rfl, rfl, rfl, rfl, rfl, rfl, rfl, rfl⟩

lemma sameInfra_trans {a b c : Cluster} (h1 : sameInfra a b) (h2 : sameInfra b c) :
    sameInfra a c :=
  ⟨h1.1.trans h2.1, h1.2.1.trans h2.2.1, h1.2.2.1.trans h2.2.2.1,
   h1.2.2.2.1.trans h2.2.2.2.1, h1.2.2.2.2.1.trans h2.2.2.2.2.1,
   h1.2.2.2.2.2.1.trans h2.2.2.2.2.2.1, h1.2.2.2.2.2.2.1.trans h2.2.2.2.2.2.2.1,
   h1.2.2.2.2.2.2.2.trans h2.2.2.2.2.2.2.2⟩

lemma ext_refl (t : Cluster) : Ext t t :=
  ⟨sameInfra_refl t, fun _ h => h, fun _ h => Or.inl h⟩

lemma ext_trans {a b c : Cluster} (h1 : Ext a b) (h2 : Ext b c) : Ext a c := by
  refine ⟨sameInfra_trans h1.1 h2.1, fun o h => h2.2.1 o (h1.2.1 o h), fun o h => ?_⟩
  rcases h2.2.2 o h with h' | h'
  · exact h1.2.2 o h'
  · rw [h1.1.2.2.1]
    exact Or.inr h'

lemma ext_createObj (s : Cluster) (o : ObjRef) : Ext s (createObj s o).1 := by
  unfold createObj
  by_cases hm : o ∈ s.objs
  · rw [if_pos hm]
    exact ext_refl s
  · rw [if_neg hm]
    cases hf : lookupFault s.createFaults o with
    | some n => exact ext_refl s
    | none =>
      refine ⟨⟨rfl, rfl, rfl, rfl, rfl, rfl, rfl, rfl⟩,
        fun x h => List.mem_cons_of_mem _ h, fun x h => ?_⟩
      rcases List.mem_cons.mp h with h' | h'
      · subst h'
        exact Or.inr hf
      · exact Or.inl h'

lemma createObj_post (s : Cluster) (o : ObjRef) :
    o ∈ (createObj s o).1.objs ∨ lookupFault s.createFaults o ≠ none := by
  unfold createObj
  by_cases hm : o ∈ s.objs
  · rw [if_pos hm]
    exact Or.inl hm
  · rw [if_neg hm]
    cases hf : lookupFault s.createFaults o with
    | some n => exact Or.inr (fun hc => nomatch hc)
    | none => exact Or.inl (List.mem_cons_self _ _)

lemma ext_createMany (L : List ObjRef) : ∀ (s : Cluster) (E : List (Option Err)),
    Ext s (createMany s E L).1 := by
  induction L with
  | nil => exact fun s _ => ext_refl s
  | cons b bs ih => exact fun s E => ext_trans (ext_createObj s b) (ih _ _)

lemma ext_phase1 (g : Gen) (s : Cluster) (tid : TwinId) : Ext s (phase1 g s tid).1 := by
  unfold phase1
  dsimp only
  exact ext_trans (ext_createObj s _) (ext_createObj _ _)

lemma ext_updateIface (s : Cluster) (v : TwinInterface) : Ext s (updateIface s v).1 := by
  unfold updateIface
  by_cases hupd : s.updateFails = true
  · rw [if_pos hupd]
    exact ext_refl s
  · rw [if_neg hupd]
    exact ⟨⟨rfl, rfl, rfl, rfl, rfl, rfl, rfl, rfl⟩, fun _ h => h, fun _ h => Or.inl h⟩

lemma createObj_ifaces (s : Cluster) (o : ObjRef) : (createObj s o).1.ifaces = s.ifaces := by
  unfold createObj
  by_cases hm : o ∈ s.objs
  · rw [if_pos hm]
  · rw [if_neg hm]
    cases lookupFault s.createFaults o <;> rfl

lemma createMany_ifaces (L : List ObjRef) : ∀ (s : Cluster) (E : List (Option Err)),
    (createMany s E L).1.ifaces = s.ifaces := by
  induction L with
  | nil => exact fun s _ => rfl
  | cons b bs ih =>
    intro s E
    rw [show (createMany s E (b :: bs)).1 =
        (createMany (createObj s b).1 (appendHard E (createObj s b).2) bs).1 from rfl]
    rw [ih]
    exact createObj_ifaces s b

lemma phase1_ifaces (g : Gen) (s : Cluster) (tid : TwinId) :
    (phase1 g s tid).1.ifaces = s.ifaces := by
  unfold phase1
  dsimp only
  rw [createObj_ifaces, createObj_ifaces]

lemma createObj_run2 {t S : Cluster} (o : ObjRef) (h1 : Ext t S)
    (h2 : Ext (createObj t o).1 S) :
    (createObj S o).1 = S ∧
    ∀ E, appendHard E (createObj S o).2 = appendHard E (createObj t o).2 := by
  by_cases hm : o ∈ t.objs
  · rw [createObj_mem t o hm, createObj_mem S o (h1.2.1 o hm)]
    exact ⟨rfl, fun E => rfl⟩
  · cases hf : lookupFault t.createFaults o with
    | some n =>
      have hC : createObj t o = (t, some (Err.transport n)) := by
        unfold createObj
        rw [if_neg hm, hf]
      have hnS : o ∉ S.objs := by
        intro hS
        rcases h1.2.2 o hS with h | h
        · exact hm h
        · rw [h] at hf
          cases hf
      have hfS : lookupFault S.createFaults o = some n := by
        rw [← h1.1.2.2.1]
        exact hf
      have hCS : createObj S o = (S, some (Err.transport n)) := by
        unfold createObj
        rw [if_neg hnS, hfS]
      rw [hC, hCS]
      exact ⟨rfl, fun E => rfl⟩
    | none =>
      have hC : createObj t o = ({ t with objs := o :: t.objs }, none) :=
        createObj_not_mem_clean t o hm hf
      have hoS : o ∈ S.objs := by
        apply h2.2.1 o
        rw [hC]
        exact List.mem_cons_self _ _
      rw [hC, createObj_mem S o hoS]
      refine ⟨rfl, fun E => ?_⟩
      show appendHard E (some Err.alreadyExists) = appendHard E none
      rw [appendHard_aE, appendHard_none]

lemma getObj_run2 {t S : Cluster} (o : ObjRef) (h1 : Ext t S)
    (hpost : o ∈ t.objs ∨ lookupFault t.createFaults o ≠ none) :
    getObj S o = getObj t o := by
  unfold getObj
  rw [← h1.1.2.2.2.1]
  cases hf : lookupFault t.getFaults o with
  | some n => rfl
  | none =>
    by_cases hmem : o ∈ t.objs
    · rw [if_pos hmem, if_pos (h1.2.1 o hmem)]
    · have hfault : lookupFault t.createFaults o ≠ none := hpost.resolve_left hmem
      have hnS : o ∉ S.objs := fun hS => (h1.2.2 o hS).elim hmem hfault
      rw [if_neg hmem, if_neg hnS]

lemma createMany_run2 (L : List ObjRef) : ∀ (t S : Cluster) (E : List (Option Err)),
    Ext t S → Ext (createMany t E L).1 S →
    createMany S E L = (S, (createMany t E L).2) := by
  induction L with
  | nil => intro t S E _ _; rfl
  | cons b bs ih =>
    intro t S E h1 h2
    have ht1S : Ext (createObj t b).1 S :=
      ext_trans (ext_createMany bs (createObj t b).1 (appendHard E (createObj t b).2)) h2
    obtain ⟨hS1, hE1⟩ := createObj_run2 b h1 ht1S
    have hstep : createMany S E (b :: bs) =
        createMany S (appendHard E (createObj t b).2) bs := by
      show createMany (createObj S b).1 (appendHard E (createObj S b).2) bs = _
      rw [hS1, hE1 E]
    rw [hstep]
    exact ih (createObj t b).1 S (appendHard E (createObj t b).2) ht1S h2

lemma phase1_run2 (g : Gen) (tid : TwinId) {t S : Cluster}
    (h1 : Ext t S) (h2 : Ext (phase1 g t tid).1 S) :
    phase1 g S tid = (S, (phase1 g t tid).2) := by
  have ht1S : Ext (createObj t (g.getService tid)).1 S :=
    ext_trans (ext_createObj (createObj t (g.getService tid)).1 (g.getTrigger tid)) h2
  obtain ⟨hS1, hE1⟩ := createObj_run2 (g.getService tid) h1 ht1S
  obtain ⟨hS2, hE2⟩ := createObj_run2 (g.getTrigger tid) ht1S h2
  have hpost : g.getTrigger tid ∈ (phase1 g t tid).1.objs ∨
      lookupFault (phase1 g t tid).1.createFaults (g.getTrigger tid) ≠ none := by
    rcases createObj_post (createObj t (g.getService tid)).1 (g.getTrigger tid) with h | h
    · exact Or.inl h
    · refine Or.inr ?_
      show lookupFault
        (createObj (createObj t (g.getService tid)).1 (g.getTrigger tid)).1.createFaults
        (g.getTrigger tid) ≠ none
      rw [← (ext_createObj (createObj t (g.getService tid)).1 (g.getTrigger tid)).1.2.2.1]
      exact h
  have hget : getObj S (g.getTrigger tid) =
      getObj (createObj (createObj t (g.getService tid)).1 (g.getTrigger tid)).1
        (g.getTrigger tid) :=
    getObj_run2 (g.getTrigger tid) h2 hpost
  unfold phase1
  dsimp only
  rw [hS1, hS2, hget, hE1, hE2]

lemma listEvQ_congr {t u : Cluster} (h : sameInfra t u) (ns : String) :
    listEvQ u ns = listEvQ t ns := by
  unfold listEvQ
  rw [← h.2.2.2.2.1, ← h.2.1]

lemma listEx_congr {t u : Cluster} (h : sameInfra t u) (ns : String) :
    listEx u ns = listEx t ns := by
  unfold listEx
  rw [← h.2.2.2.2.2.1, ← h.1]

lemma listIfaceQ_congr {t u : Cluster} (h : sameInfra t u) (ns tname : String) :
    listIfaceQ u ns tname = listIfaceQ t ns tname := by
  unfold listIfaceQ
  rw [← h.2.2.2.2.2.2.1, ← h.2.1]

lemma replIface_idem (v i : TwinInterface) :
    replIface v (replIface v i) = replIface v i := by
  unfold replIface
  by_cases hk : i.name = v.name ∧ i.ns = v.ns
  · rw [if_pos hk, if_pos ⟨rfl, rfl⟩]
  · rw [if_neg hk, if_neg hk]

lemma update_map_idem (v : TwinInterface) (l : List TwinInterface) :
    (l.map (replIface v)).map (replIface v) = l.map (replIface v) := by
  rw [List.map_map]
  exact List.map_congr_left (fun a _ => replIface_idem v a)

lemma updateIface_stable (s : Cluster) (v : TwinInterface) :
    (updateIface (updateIface s v).1 v).1 = (updateIface s v).1 := by
  by_cases hupd : s.updateFails = true
  · have h1 : updateIface s v = (s, some (Err.transport 999)) := by
      unfold updateIface
      rw [if_pos hupd]
    rw [h1]
    dsimp only
    rw [h1]
  · have h1 : updateIface s v = ({ s with ifaces := s.ifaces.map (replIface v) }, none) := by
      unfold updateIface
      rw [if_neg hupd]
    rw [h1]
    dsimp only
    have h2 : updateIface { s with ifaces := s.ifaces.map (replIface v) } v =
        ({ s with ifaces := (s.ifaces.map (replIface v)).map (replIface v) }, none) := by
      unfold updateIface
      rw [if_neg (show ¬({ s with ifaces := s.ifaces.map (replIface v) } : Cluster).updateFails
        = true from hupd)]
    rw [h2]
    dsimp only
    rw [update_map_idem]

lemma find?_map_key (ns name : String) (v : TwinInterface)
    (hn : v.name = name) (hns : v.ns = ns) :
    ∀ (l : List TwinInterface),
      (l.find? (fun i => i.name == name && i.ns == ns)).isSome = true →
      (l.map (replIface v)).find? (fun i => i.name == name && i.ns == ns) = some v := by
  intro l
  induction l with
  | nil => intro h; simp at h
  | cons a as ih =>
    intro h
    by_cases hpa : (a.name == name && a.ns == ns) = true
    · have hpa' : a.name = name ∧ a.ns = ns := by simpa using hpa
      have hk : a.name = v.name ∧ a.ns = v.ns :=
        ⟨by rw [hpa'.1, hn], by rw [hpa'.2, hns]⟩
      have hfa : replIface v a = v := by
        unfold replIface
        rw [if_pos hk]
      have hpv : (v.name == name && v.ns == ns) = true := by
        rw [hn, hns]
        simp
      rw [List.map_cons, hfa,
        List.find?_cons_of_pos (p := fun i : TwinInterface => i.name == name && i.ns == ns) _ hpv]
    · have hfa : replIface v a = a := by
        unfold replIface
        rw [if_neg]
        rintro ⟨k1, k2⟩
        apply hpa
        rw [k1, k2, hn, hns]
        simp
      rw [List.map_cons, hfa,
        List.find?_cons_of_neg (p := fun i : TwinInterface => i.name == name && i.ns == ns) _ hpa]
      apply ih
      rw [List.find?_cons_of_neg (p := fun i : TwinInterface => i.name == name && i.ns == ns) _ hpa] at h
      exact h

lemma findIface_updateIface (s : Cluster) (ns name : String) (v : TwinInterface)
    (hupd : ¬ s.updateFails = true) (hn : v.name = name) (hns : v.ns = ns)
    (hfind : (findIface s ns name).isSome = true) :
    findIface (updateIface s v).1 ns name = some v := by
  have h1 : (updateIface s v).1 = { s with ifaces := s.ifaces.map (replIface v) } := by
    unfold updateIface
    rw [if_neg hupd]
  rw [h1]
  unfold findIface
  dsimp only
  exact find?_map_key ns name v hn hns s.ifaces hfind

lemma findIface_name_ns {s : Cluster} {ns name : String} {ti : TwinInterface}
    (hfind : findIface s ns name = some ti) : ti.name = name ∧ ti.ns = ns := by
  have h := List.find?_some hfind
  simpa using h

lemma reconcileIface_found (g : Gen) (S : Cluster) (ns name : String)
    (tiR : TwinInterface)
    (hg : lookupFault S.getFaults (ifaceRef ns name) = none)
    (hf : findIface S ns name = some tiR) :
    reconcileIface g S ns name = createUpdateTwinInterface g S tiR := by
  unfold reconcileIface
  rw [hg, hf]

lemma createUpdate_svc (g : Gen) (S : Cluster) (tiR : TwinInterface)
    (hsvc : tiR.hasService = true) :
    createUpdateTwinInterface g S tiR =
      resolveAndBind g (phase1 g S tiR.toId).1 tiR (phase1 g S tiR.toId).2
        (g.getTrigger tiR.toId) := by
  unfold createUpdateTwinInterface
  rw [hsvc, if_pos rfl]

lemma createUpdate_nosvc (g : Gen) (S : Cluster) (tiR : TwinInterface)
    (hsvc : ¬ tiR.hasService = true) :
    createUpdateTwinInterface g S tiR = finishIface S tiR [] := by
  unfold createUpdateTwinInterface
  rw [if_neg hsvc]

lemma resolveAndBind_evNil (g : Gen) (S : Cluster) (ti : TwinInterface)
    (E : List (Option Err)) (trig : ObjRef)
    (hev : (listEvQ S ti.ns).2 = []) :
    resolveAndBind g S ti E trig =
      { state := S, retErr := (listEvQ S ti.ns).1, iface := some ti,
        errs := E ++ [(listEvQ S ti.ns).1], completed := false,
        updateCalled := false } := by
  unfold resolveAndBind
  dsimp only
  rw [hev]

lemma resolveAndBind_exNil (g : Gen) (S : Cluster) (ti : TwinInterface)
    (E : List (Option Err)) (trig : ObjRef) (evq : Infra) (evtl : List Infra)
    (hev : (listEvQ S ti.ns).2 = evq :: evtl)
    (hex : (listEx S ti.ns).2 = []) :
    resolveAndBind g S ti E trig =
      finishIface S ti
        ((if (listEx S ti.ns).1.isSome = true then E ++ [(listEx S ti.ns).1] else E) ++
          [(listEx S ti.ns).1]) := by
  unfold resolveAndBind
  dsimp only
  rw [hev]
  dsimp only
  rw [hex]

lemma resolveAndBind_qNil (g : Gen) (S : Cluster) (ti : TwinInterface)
    (E : List (Option Err)) (trig : ObjRef) (evq : Infra) (evtl : List Infra)
    (exq : Infra) (extl : List Infra)
    (hev : (listEvQ S ti.ns).2 = evq :: evtl)
    (hex : (listEx S ti.ns).2 = exq :: extl)
    (hq : (listIfaceQ S ti.ns ti.name).2 = []) :
    resolveAndBind g S ti E trig =
      finishIface S ti
        ((if (listEx S ti.ns).1.isSome = true then E ++ [(listEx S ti.ns).1] else E) ++
          [(listIfaceQ S ti.ns ti.name).1]) := by
  unfold resolveAndBind
  dsimp only
  rw [hev]
  dsimp only
  rw [hex]
  dsimp only
  rw [hq]

lemma resolveAndBind_full (g : Gen) (S : Cluster) (ti : TwinInterface)
    (E : List (Option Err)) (trig : ObjRef) (evq : Infra) (evtl : List Infra)
    (exq : Infra) (extl : List Infra) (qq : Infra) (qtl : List Infra)
    (hev : (listEvQ S ti.ns).2 = evq :: evtl)
    (hex : (listEx S ti.ns).2 = exq :: extl)
    (hq : (listIfaceQ S ti.ns ti.name).2 = qq :: qtl) :
    resolveAndBind g S ti E trig =
      bindPart g S ti
        (if (listEx S ti.ns).1.isSome = true then E ++ [(listEx S ti.ns).1] else E)
        trig exq evq qq := by
  unfold resolveAndBind
  dsimp only
  rw [hev]
  dsimp only
  rw [hex]
  dsimp only
  rw [hq]

lemma finishIface_nil_state (s : Cluster) (ti : TwinInterface) :
    (finishIface s ti []).state = (updateIface s (runningIface ti)).1 := rfl

/-- Replaying a pass with no declared compute service on its own final state
reproduces the same output. -/
lemma run2_nosvc (g : Gen) (s : Cluster) (ns name : String) (ti : TwinInterface)
    (hgf : lookupFault s.getFaults (ifaceRef ns name) = none)
    (hfind : findIface s ns name = some ti)
    (hsvc : ¬ ti.hasService = true) :
    reconcileIface g (createUpdateTwinInterface g s ti).state ns name =
      createUpdateTwinInterface g s ti := by
  obtain ⟨htn, htns⟩ := findIface_name_ns hfind
  rw [createUpdate_nosvc g s ti hsvc]
  by_cases hupd : s.updateFails = true
  · have hstate : (finishIface s ti []).state = s := by
      rw [finishIface_nil_state]
      unfold updateIface
      rw [if_pos hupd]
    rw [hstate, reconcileIface_found g s ns name ti hgf hfind,
      createUpdate_nosvc g s ti hsvc]
  · have hfind2 : findIface (finishIface s ti []).state ns name =
        some (runningIface ti) := by
      rw [finishIface_nil_state]
      exact findIface_updateIface s ns name (runningIface ti) hupd htn htns
        (by rw [hfind]; rfl)
    have hg2 : lookupFault (finishIface s ti []).state.getFaults
        (ifaceRef ns name) = none := by
      rw [finishIface_nil_state, ← (ext_updateIface s (runningIface ti)).1.2.2.2.1]
      exact hgf
    rw [reconcileIface_found g _ ns name (runningIface ti) hg2 hfind2,
      createUpdate_nosvc g _ (runningIface ti)
        (show ¬ (runningIface ti).hasService = true from hsvc)]
    have hL : finishIface (finishIface s ti []).state (runningIface ti) [] =
        { state := (updateIface (updateIface s (runningIface ti)).1 (runningIface ti)).1,
          retErr := none, iface := some (runningIface ti), errs := [],
          completed := true, updateCalled := true } := rfl
    have hR : finishIface s ti [] =
        { state := (updateIface s (runningIface ti)).1, retErr := none,
          iface := some (runningIface ti), errs := [], completed := true,
          updateCalled := true } := rfl
    rw [hL, hR, updateIface_stable s (runningIface ti)]

/-- Replaying a pass whose resolve-and-bind stage ended with the state it
started from (any of the three empty-list outcomes) reproduces the same
output. -/
lemma run2_stateP (g : Gen) (ns name : String) (ti : TwinInterface) (s P : Cluster)
    (E3 : List (Option Err))
    (hphase : phase1 g s ti.toId = (P, E3))
    (hExtsP : Ext s P)
    (hgf : lookupFault s.getFaults (ifaceRef ns name) = none)
    (hfindP : findIface P ns name = some ti)
    (hsvc : ti.hasService = true)
    (hstate : (resolveAndBind g P ti E3 (g.getTrigger ti.toId)).state = P) :
    reconcileIface g (resolveAndBind g P ti E3 (g.getTrigger ti.toId)).state ns name =
      resolveAndBind g P ti E3 (g.getTrigger ti.toId) := by
  rw [hstate]
  have hPproj1 : (phase1 g s ti.toId).1 = P := by rw [hphase]
  have hPproj2 : (phase1 g s ti.toId).2 = E3 := by rw [hphase]
  have hgP : lookupFault P.getFaults (ifaceRef ns name) = none := by
    rw [← hExtsP.1.2.2.2.1]
    exact hgf
  rw [reconcileIface_found g P ns name ti hgP hfindP, createUpdate_svc g P ti hsvc]
  have h2 : Ext (phase1 g s ti.toId).1 P := by
    rw [hPproj1]
    exact ext_refl P
  have hphase2 : phase1 g P ti.toId = (P, E3) := by
    rw [phase1_run2 g ti.toId hExtsP h2, hPproj2]
  rw [hphase2]

/-- Replaying a pass that went through the binding-creation stage reproduces
the same output: every binding create of the second pass hits already-exists
or the same fault, the lists are unchanged, and a successful status update is
idempotent. -/
lemma run2_full (g : Gen) (ns name : String) (ti : TwinInterface) (s P : Cluster)
    (E3 E4 : List (Option Err)) (evq exq qq : Infra) (evtl extl qtl : List Infra)
    (R1 R2 : Cluster × List (Option Err))
    (hphase : phase1 g s ti.toId = (P, E3))
    (hExtsP : Ext s P)
    (hgf : lookupFault s.getFaults (ifaceRef ns name) = none)
    (hfindP : findIface P ns name = some ti)
    (hsvc : ti.hasService = true)
    (htn : ti.name = name) (htns : ti.ns = ns)
    (hev : (listEvQ P ti.ns).2 = evq :: evtl)
    (hex : (listEx P ti.ns).2 = exq :: extl)
    (hq : (listIfaceQ P ti.ns ti.name).2 = qq :: qtl)
    (hE4 : E4 = if (listEx P ti.ns).1.isSome = true then E3 ++ [(listEx P ti.ns).1] else E3)
    (hR1 : createMany P E4 (g.relBindings ti.toId (g.getTrigger ti.toId) exq qq) = R1)
    (hR2 : createMany R1.1 R1.2 (g.esBindings ti.toId (g.getTrigger ti.toId) exq evq) = R2) :
    reconcileIface g
        (bindPart g P ti E4 (g.getTrigger ti.toId) exq evq qq).state ns name =
      bindPart g P ti E4 (g.getTrigger ti.toId) exq evq qq := by
  have hPproj1 : (phase1 g s ti.toId).1 = P := by rw [hphase]
  have hPproj2 : (phase1 g s ti.toId).2 = E3 := by rw [hphase]
  have hBP : bindPart g P ti E4 (g.getTrigger ti.toId) exq evq qq =
      finishIface R2.1 ti R2.2 := by
    unfold bindPart
    dsimp only
    rw [hR1]
    rw [hR2]
  rw [hBP]
  have hExtPR1 : Ext P R1.1 := by
    rw [← hR1]
    exact ext_createMany _ P E4
  have hExtR1S4 : Ext R1.1 R2.1 := by
    rw [← hR2]
    exact ext_createMany _ R1.1 R1.2
  have hExtPS4 : Ext P R2.1 := ext_trans hExtPR1 hExtR1S4
  have hExtsS4 : Ext s R2.1 := ext_trans hExtsP hExtPS4
  have hS4ifaces : R2.1.ifaces = P.ifaces := by
    rw [← hR2, createMany_ifaces, ← hR1, createMany_ifaces]
  have hg4 : lookupFault R2.1.getFaults (ifaceRef ns name) = none := by
    rw [← hExtsS4.1.2.2.2.1]
    exact hgf
  have hfind4 : findIface R2.1 ns name = some ti := by
    unfold findIface
    rw [hS4ifaces]
    exact hfindP
  have hinfra : sameInfra P R2.1 := hExtPS4.1
  have h2 : Ext (phase1 g s ti.toId).1 R2.1 := by
    rw [hPproj1]
    exact hExtPS4
  have hphase2 : phase1 g R2.1 ti.toId = (R2.1, E3) := by
    rw [phase1_run2 g ti.toId hExtsS4 h2, hPproj2]
  have hev4 : (listEvQ R2.1 ti.ns).2 = evq :: evtl := by
    rw [listEvQ_congr hinfra]
    exact hev
  have hex4 : (listEx R2.1 ti.ns).2 = exq :: extl := by
    rw [listEx_congr hinfra]
    exact hex
  have hq4 : (listIfaceQ R2.1 ti.ns ti.name).2 = qq :: qtl := by
    rw [listIfaceQ_congr hinfra]
    exact hq
  have hE4' : (if (listEx R2.1 ti.ns).1.isSome = true
      then E3 ++ [(listEx R2.1 ti.ns).1] else E3) = E4 := by
    rw [listEx_congr hinfra, ← hE4]
  have hcm1 : createMany R2.1 E4 (g.relBindings ti.toId (g.getTrigger ti.toId) exq qq) =
      (R2.1, R1.2) := by
    have h := createMany_run2 (g.relBindings ti.toId (g.getTrigger ti.toId) exq qq)
      P R2.1 E4 hExtPS4 (by rw [hR1]; exact hExtR1S4)
    rw [hR1] at h
    exact h
  have hcm2 : createMany R2.1 R1.2 (g.esBindings ti.toId (g.getTrigger ti.toId) exq evq) =
      (R2.1, R2.2) := by
    have h := createMany_run2 (g.esBindings ti.toId (g.getTrigger ti.toId) exq evq)
      R1.1 R2.1 R1.2 hExtR1S4 (by rw [hR2]; exact ext_refl R2.1)
    rw [hR2] at h
    exact h
  cases hE6 : R2.2 with
  | cons e es =>
    have hstate : (finishIface R2.1 ti (e :: es)).state = R2.1 := rfl
    rw [hstate, reconcileIface_found g R2.1 ns name ti hg4 hfind4,
      createUpdate_svc g R2.1 ti hsvc, hphase2]
    dsimp only
    rw [resolveAndBind_full g R2.1 ti E3 (g.getTrigger ti.toId) evq evtl exq extl qq qtl
      hev4 hex4 hq4, hE4']
    unfold bindPart
    dsimp only
    rw [hcm1]
    dsimp only
    rw [hcm2]
    dsimp only
    rw [hE6]
  | nil =>
    by_cases hupd4 : R2.1.updateFails = true
    · have hstate : (finishIface R2.1 ti []).state = R2.1 := by
        show (updateIface R2.1 (runningIface ti)).1 = R2.1
        unfold updateIface
        rw [if_pos hupd4]
      rw [hstate, reconcileIface_found g R2.1 ns name ti hg4 hfind4,
        createUpdate_svc g R2.1 ti hsvc, hphase2]
      dsimp only
      rw [resolveAndBind_full g R2.1 ti E3 (g.getTrigger ti.toId) evq evtl exq extl qq qtl
        hev4 hex4 hq4, hE4']
      unfold bindPart
      dsimp only
      rw [hcm1]
      dsimp only
      rw [hcm2]
      dsimp only
      rw [hE6]
    · have hstate : (finishIface R2.1 ti []).state =
          (updateIface R2.1 (runningIface ti)).1 := rfl
      rw [hstate]
      have hExtS4S' : Ext R2.1 (updateIface R2.1 (runningIface ti)).1 :=
        ext_updateIface R2.1 (runningIface ti)
      have hExtPS' : Ext P (updateIface R2.1 (runningIface ti)).1 :=
        ext_trans hExtPS4 hExtS4S'
      have hExtsS' : Ext s (updateIface R2.1 (runningIface ti)).1 :=
        ext_trans hExtsS4 hExtS4S'
      have hinfra' : sameInfra P (updateIface R2.1 (runningIface ti)).1 := hExtPS'.1
      have hg' : lookupFault (updateIface R2.1 (runningIface ti)).1.getFaults
          (ifaceRef ns name) = none := by
        rw [← hExtsS'.1.2.2.2.1]
        exact hgf
      have hfind' : findIface (updateIface R2.1 (runningIface ti)).1 ns name =
          some (runningIface ti) :=
        findIface_updateIface R2.1 ns name (runningIface ti) hupd4 htn htns
          (by rw [hfind4]; rfl)
      rw [reconcileIface_found g _ ns name (runningIface ti) hg' hfind',
        createUpdate_svc g _ (runningIface ti) hsvc,
        show (runningIface ti).toId = ti.toId from rfl]
      have h2' : Ext (phase1 g s ti.toId).1 (updateIface R2.1 (runningIface ti)).1 := by
        rw [hPproj1]
        exact hExtPS'
      have hphase2' : phase1 g (updateIface R2.1 (runningIface ti)).1 ti.toId =
          ((updateIface R2.1 (runningIface ti)).1, E3) := by
        rw [phase1_run2 g ti.toId hExtsS' h2', hPproj2]
      rw [hphase2']
      dsimp only
      have hev' : (listEvQ (updateIface R2.1 (runningIface ti)).1
          (runningIface ti).ns).2 = evq :: evtl := by
        rw [show (runningIface ti).ns = ti.ns from rfl, listEvQ_congr hinfra']
        exact hev
      have hex' : (listEx (updateIface R2.1 (runningIface ti)).1
          (runningIface ti).ns).2 = exq :: extl := by
        rw [show (runningIface ti).ns = ti.ns from rfl, listEx_congr hinfra']
        exact hex
      have hq' : (listIfaceQ (updateIface R2.1 (runningIface ti)).1
          (runningIface ti).ns (runningIface ti).name).2 = qq :: qtl := by
        rw [show (runningIface ti).ns = ti.ns from rfl,
          show (runningIface ti).name = ti.name from rfl, listIfaceQ_congr hinfra']
        exact hq
      rw [resolveAndBind_full g _ (runningIface ti) E3 (g.getTrigger ti.toId)
        evq evtl exq extl qq qtl hev' hex' hq']
      have hE4'' : (if (listEx (updateIface R2.1 (runningIface ti)).1
            (runningIface ti).ns).1.isSome = true
          then E3 ++ [(listEx (updateIface R2.1 (runningIface ti)).1
            (runningIface ti).ns).1]
          else E3) = E4 := by
        rw [show (runningIface ti).ns = ti.ns from rfl, listEx_congr hinfra', ← hE4]
      rw [hE4'']
      unfold bindPart
      dsimp only
      rw [show (runningIface ti).toId = ti.toId from rfl]
      have hcm1' : createMany (updateIface R2.1 (runningIface ti)).1 E4
          (g.relBindings ti.toId (g.getTrigger ti.toId) exq qq) =
          ((updateIface R2.1 (runningIface ti)).1, R1.2) := by
        have h := createMany_run2 (g.relBindings ti.toId (g.getTrigger ti.toId) exq qq)
          P (updateIface R2.1 (runningIface ti)).1 E4 hExtPS'
          (by rw [hR1]; exact ext_trans hExtR1S4 hExtS4S')
        rw [hR1] at h
        exact h
      rw [hcm1']
      dsimp only
      have hcm2' : createMany (updateIface R2.1 (runningIface ti)).1 R1.2
          (g.esBindings ti.toId (g.getTrigger ti.toId) exq evq) =
          ((updateIface R2.1 (runningIface ti)).1, R2.2) := by
        have h := createMany_run2 (g.esBindings ti.toId (g.getTrigger ti.toId) exq evq)
          R1.1 (updateIface R2.1 (runningIface ti)).1 R1.2
          (ext_trans hExtR1S4 hExtS4S') (by rw [hR2]; exact hExtS4S')
        rw [hR2] at h
        exact h
      rw [hcm2']
      dsimp only
      rw [hE6]
      have hL : finishIface (updateIface R2.1 (runningIface ti)).1 (runningIface ti) [] =
          { state := (updateIface (updateIface R2.1 (runningIface ti)).1
              (runningIface ti)).1, retErr := none, iface := some (runningIface ti),
            errs := [], completed := true, updateCalled := true } := rfl
      have hR : finishIface R2.1 ti [] =
          { state := (updateIface R2.1 (runningIface ti)).1, retErr := none,
            iface := some (runningIface ti), errs := [], completed := true,
            updateCalled := true } := rfl
      rw [hL, hR, updateIface_stable R2.1 (runningIface ti)]

/-- Replaying a pass with a declared compute service on its own final state
reproduces the same output. -/
lemma run2_svc (g : Gen) (s : Cluster) (ns name : String) (ti : TwinInterface)
    (hgf : lookupFault s.getFaults (ifaceRef ns name) = none)
    (hfind : findIface s ns name = some ti)
    (hsvc : ti.hasService = true) :
    reconcileIface g (createUpdateTwinInterface g s ti).state ns name =
      createUpdateTwinInterface g s ti := by
  obtain ⟨htn, htns⟩ := findIface_name_ns hfind
  have hExtP : Ext s (phase1 g s ti.toId).1 := ext_phase1 g s ti.toId
  have hfindP : findIface (phase1 g s ti.toId).1 ns name = some ti := by
    unfold findIface
    rw [phase1_ifaces]
    exact hfind
  rw [createUpdate_svc g s ti hsvc]
  cases hev : (listEvQ (phase1 g s ti.toId).1 ti.ns).2 with
  | nil =>
    refine run2_stateP g ns name ti s (phase1 g s ti.toId).1 (phase1 g s ti.toId).2
      rfl hExtP hgf hfindP hsvc ?_
    rw [resolveAndBind_evNil g _ ti _ _ hev]
  | cons evq evtl =>
    cases hex : (listEx (phase1 g s ti.toId).1 ti.ns).2 with
    | nil =>
      refine run2_stateP g ns name ti s (phase1 g s ti.toId).1 (phase1 g s ti.toId).2
        rfl hExtP hgf hfindP hsvc ?_
      rw [resolveAndBind_exNil g _ ti _ _ evq evtl hev hex]
      have hne : ((if (listEx (phase1 g s ti.toId).1 ti.ns).1.isSome = true
          then (phase1 g s ti.toId).2 ++ [(listEx (phase1 g s ti.toId).1 ti.ns).1]
          else (phase1 g s ti.toId).2) ++
            [(listEx (phase1 g s ti.toId).1 ti.ns).1]) ≠ [] := by
        simp
      obtain ⟨e0, es, hcons⟩ := List.exists_cons_of_ne_nil hne
      rw [hcons]
      rfl
    | cons exq extl =>
      cases hq : (listIfaceQ (phase1 g s ti.toId).1 ti.ns ti.name).2 with
      | nil =>
        refine run2_stateP g ns name ti s (phase1 g s ti.toId).1 (phase1 g s ti.toId).2
          rfl hExtP hgf hfindP hsvc ?_
        rw [resolveAndBind_qNil g _ ti _ _ evq evtl exq extl hev hex hq]
        have hne : ((if (listEx (phase1 g s ti.toId).1 ti.ns).1.isSome = true
            then (phase1 g s ti.toId).2 ++ [(listEx (phase1 g s ti.toId).1 ti.ns).1]
            else (phase1 g s ti.toId).2) ++
              [(listIfaceQ (phase1 g s ti.toId).1 ti.ns ti.name).1]) ≠ [] := by
          simp
        obtain ⟨e0, es, hcons⟩ := List.exists_cons_of_ne_nil hne
        rw [hcons]
        rfl
      | cons qq qtl =>
        rw [resolveAndBind_full g _ ti _ _ evq evtl exq extl qq qtl hev hex hq]
        exact run2_full g ns name ti s (phase1 g s ti.toId).1 (phase1 g s ti.toId).2 _
          evq exq qq evtl extl qtl _ _ rfl hExtP hgf hfindP hsvc htn htns hev hex hq
          rfl rfl rfl

/-- Replaying a whole pass that fetched its TwinInterface reproduces the same
output. -/
lemma createUpdateIface_replay (g : Gen) (s : Cluster) (ns name : String)
    (ti : TwinInterface)
    (hgf : lookupFault s.getFaults (ifaceRef ns name) = none)
    (hfind : findIface s ns name = some ti) :
    reconcileIface g (createUpdateTwinInterface g s ti).state ns name =
      createUpdateTwinInterface g s ti := by
  by_cases hsvc : ti.hasService = true
  · exact run2_svc g s ns name ti hgf hfind hsvc
  · exact run2_nosvc g s ns name ti hgf hfind hsvc

/-- The TwinInterface reconciler is idempotent on the cluster state: running
it a second time on the final state of a first run yields the very same
output (state, status object, error list, returned error). -/
lemma reconcileIface_idem (g : Gen) (s : Cluster) (ns name : String) :
    reconcileIface g (reconcileIface g s ns name).state ns name =
      reconcileIface g s ns name := by
  cases hg : lookupFault s.getFaults (ifaceRef ns name) with
  | some n =>
    have h1 : reconcileIface g s ns name =
        { state := s, retErr := some (Err.transport n), iface := none, errs := [],
          completed := false, updateCalled := false } := by
      unfold reconcileIface
      rw [hg]
    rw [h1]
    dsimp only
    exact h1
  | none =>
    cases hf : findIface s ns name with
    | none =>
      have h1 : reconcileIface g s ns name =
          { state := s, retErr := none, iface := none, errs := [],
            completed := false, updateCalled := false } := by
        unfold reconcileIface
        rw [hg, hf]
      rw [h1]
      dsimp only
      exact h1
    | some ti =>
      rw [reconcileIface_found g s ns name ti hg hf]
      exact createUpdateIface_replay g s ns name ti hg hf

/-!  ## Claim theorems  -/

/-- C1 (code evaluation at the failing input): for the `temperature-sensor`
Interface with a declared compute service, in a namespace where the default
broker Exchange and the interface Queue exist but the event-store Queue is
absent, the reconcile pass does NOT behave as the claim states: it appends the
nil List error and returns it immediately (retErr none), creates no
relationship Binding (only the Service and the Trigger are in the store
afterwards), never reaches the phase computation, and leaves the phase
unset (pending) instead of Failed. -/
theorem c1_eventStoreQueueAbsent_behavior :
    (reconcileIface sampleGen clNoEvQ "default" "temperature-sensor").retErr = none ∧
    (reconcileIface sampleGen clNoEvQ "default" "temperature-sensor").errs = [none] ∧
    (reconcileIface sampleGen clNoEvQ "default" "temperature-sensor").completed = false ∧
    (reconcileIface sampleGen clNoEvQ "default" "temperature-sensor").updateCalled = false ∧
    (reconcileIface sampleGen clNoEvQ "default" "temperature-sensor").iface = some ti0 ∧
    (reconcileIface sampleGen clNoEvQ "default" "temperature-sensor").state.objs =
      [⟨"Trigger", "default", "temperature-sensor-trigger"⟩,
       ⟨"Service", "default", "temperature-sensor"⟩] ∧
    ti0.status = Phase.pending := by
  decide

/-- C2 counterexample: a completed pass (full infrastructure, Service create
failing with a transport error) has a non-empty accumulated error list and
phase Failed, yet the identity label is NOT applied and the status update is
NOT called — the stored interface keeps its old labels and unset phase,
refuting the claim that every completing pass labels and persists the status
(Failed or Running). -/
theorem c2_failedPassNotPersisted_cex :
    (createUpdateTwinInterface sampleGen clSvcFault ti0).completed = true ∧
    (createUpdateTwinInterface sampleGen clSvcFault ti0).errs = [some (Err.transport 7)] ∧
    (createUpdateTwinInterface sampleGen clSvcFault ti0).updateCalled = false ∧
    (createUpdateTwinInterface sampleGen clSvcFault ti0).iface =
      some { ti0 with status := Phase.failed } ∧
    ({ ti0 with status := Phase.failed } : TwinInterface).labels = [("old", "label")] ∧
    (createUpdateTwinInterface sampleGen clSvcFault ti0).state.ifaces = [ti0] := by
  decide

/-- C2 (amended): in every pass that reaches the phase computation, a
non-empty accumulated error list sets phase Failed in memory and returns the
first accumulated error without applying the identity label or calling the
update; only a pass with an empty error list applies the identity label, sets
Running, and persists the status via the update call. -/
theorem c2_amended_phaseFirstErrorPersist (g : Gen) (s : Cluster) (ti : TwinInterface)
    (hc : (createUpdateTwinInterface g s ti).completed = true) :
    ((createUpdateTwinInterface g s ti).errs ≠ [] →
      (createUpdateTwinInterface g s ti).iface = some { ti with status := Phase.failed } ∧
      (createUpdateTwinInterface g s ti).errs.head? =
        some (createUpdateTwinInterface g s ti).retErr ∧
      (createUpdateTwinInterface g s ti).updateCalled = false) ∧
    ((createUpdateTwinInterface g s ti).errs = [] →
      (createUpdateTwinInterface g s ti).iface =
        some { ti with status := Phase.running, labels := [(ifaceLabelKey, ti.name)] } ∧
      (createUpdateTwinInterface g s ti).retErr = none ∧
      (createUpdateTwinInterface g s ti).updateCalled = true) := by
  rcases createUpdateIface_out g s ti with ⟨s2, e, E, h⟩ | ⟨s2, E, h⟩
  · rw [h] at hc; cases hc
  · rw [h]
    cases E with
    | nil => exact ⟨fun hne => absurd rfl hne, fun _ => ⟨rfl, rfl, rfl⟩⟩
    | cons e r => exact ⟨fun _ => ⟨rfl, rfl, rfl⟩, fun hnil => nomatch hnil⟩

/-- Witness for C2 (amended) at concrete inputs: a failing pass (Service
create fault) and a succeeding pass on the full infrastructure. -/
theorem c2_amended_witness :
    ((createUpdateTwinInterface sampleGen clSvcFault ti0).iface =
        some { ti0 with status := Phase.failed } ∧
      (createUpdateTwinInterface sampleGen clSvcFault ti0).errs.head? =
        some (createUpdateTwinInterface sampleGen clSvcFault ti0).retErr ∧
      (createUpdateTwinInterface sampleGen clSvcFault ti0).updateCalled = false) ∧
    ((createUpdateTwinInterface sampleGen clBase ti0).iface =
        some { ti0 with status := Phase.running, labels := [(ifaceLabelKey, ti0.name)] } ∧
      (createUpdateTwinInterface sampleGen clBase ti0).retErr = none ∧
      (createUpdateTwinInterface sampleGen clBase ti0).updateCalled = true) :=
  ⟨(c2_amended_phaseFirstErrorPersist sampleGen clSvcFault ti0 (by decide)).1 (by decide),
   (c2_amended_phaseFirstErrorPersist sampleGen clBase ti0 (by decide)).2 (by decide)⟩

/-- C3 counterexample: an Interface with a declared compute service in a
namespace whose default broker Exchange list is empty, but whose event-store
Queue is also absent: the pass stops at the event-store early return, so the
phase stays unset (pending) rather than Failed, refuting the claim for this
input (the Trigger and Service are still created). -/
theorem c3_missingExchange_cex :
    ti0.hasService = true ∧
    clNoExNoEvQ.exchanges.filter (matchesEx "default") = [] ∧
    (reconcileIface sampleGen clNoExNoEvQ "default" "temperature-sensor").iface = some ti0 ∧
    ti0.status = Phase.pending ∧
    (reconcileIface sampleGen clNoExNoEvQ "default" "temperature-sensor").completed = false := by
  decide

/-- C3 (amended): for every Interface with a declared compute service, under a
fault-free client, when the event-store Queue is present but the default
broker Exchange list is empty, the pass ends with phase Failed in memory, the
Service and the Trigger exist afterwards, and nothing else (in particular no
relationship Binding) was created. -/
theorem c3_amended_missingExchangeFailed (g : Gen) (s : Cluster) (ti : TwinInterface)
    (hsvc : ti.hasService = true)
    (hcf : s.createFaults = []) (hgf : s.getFaults = [])
    (hef : s.listEvQFault = none) (hxf : s.listExFault = none)
    (hev : s.queues.filter (matchesEvQ ti.ns) ≠ [])
    (hex : s.exchanges.filter (matchesEx ti.ns) = []) :
    (createUpdateTwinInterface g s ti).completed = true ∧
    (createUpdateTwinInterface g s ti).iface = some { ti with status := Phase.failed } ∧
    g.getService ti.toId ∈ (createUpdateTwinInterface g s ti).state.objs ∧
    g.getTrigger ti.toId ∈ (createUpdateTwinInterface g s ti).state.objs ∧
    ∀ x ∈ (createUpdateTwinInterface g s ti).state.objs,
      x = g.getService ti.toId ∨ x = g.getTrigger ti.toId ∨ x ∈ s.objs := by
  obtain ⟨hE, hSt, hsvcMem, htrgMem, hsub⟩ := phase1_clean g s ti.toId hcf hgf
  obtain ⟨q, qs, hq⟩ := List.exists_cons_of_ne_nil hev
  have hQ : (phase1 g s ti.toId).1.queues = s.queues := by rw [hSt]
  have hX : (phase1 g s ti.toId).1.exchanges = s.exchanges := by rw [hSt]
  have hEvF : (phase1 g s ti.toId).1.listEvQFault = none := by rw [hSt]; exact hef
  have hExF : (phase1 g s ti.toId).1.listExFault = none := by rw [hSt]; exact hxf
  have hred : createUpdateTwinInterface g s ti =
      finishIface (phase1 g s ti.toId).1 ti [none] := by
    unfold createUpdateTwinInterface
    rw [hsvc, if_pos rfl]
    dsimp only
    unfold resolveAndBind
    dsimp only
    unfold listEvQ
    rw [hEvF]
    dsimp only
    rw [hQ, hq]
    dsimp only
    unfold listEx
    rw [hExF]
    dsimp only
    rw [hX, hex]
    dsimp only
    rw [hE]
    simp
  rw [hred]
  unfold finishIface
  exact ⟨rfl, rfl, hsvcMem, htrgMem, hsub⟩

/-- Witness for C3 (amended) at a concrete input: full event-store Queue but
no default broker Exchange. -/
theorem c3_amended_witness :
    (createUpdateTwinInterface sampleGen clNoEx ti0).completed = true ∧
    (createUpdateTwinInterface sampleGen clNoEx ti0).iface =
      some { ti0 with status := Phase.failed } ∧
    sampleGen.getService ti0.toId ∈ (createUpdateTwinInterface sampleGen clNoEx ti0).state.objs ∧
    sampleGen.getTrigger ti0.toId ∈ (createUpdateTwinInterface sampleGen clNoEx ti0).state.objs ∧
    ∀ x ∈ (createUpdateTwinInterface sampleGen clNoEx ti0).state.objs,
      x = sampleGen.getService ti0.toId ∨ x = sampleGen.getTrigger ti0.toId ∨
        x ∈ clNoEx.objs :=
  c3_amended_missingExchangeFailed sampleGen clNoEx ti0 (by decide) (by decide)
    (by decide) (by decide) (by decide) (by decide) (by decide)

/-- C4 counterexample: a pass in which the exchange List succeeds with zero
items (so the nil List error is appended) but an earlier step (the Service
create) already accumulated a transport error: the error list's first element
is that transport error, not nil, and Reconcile returns it — a non-nil error —
refuting the claim that every such pass has a nil first element and returns
nil. -/
theorem c4_nilFirstElement_cex :
    clSvcFaultNoEx.listExFault = none ∧
    clSvcFaultNoEx.exchanges.filter (matchesEx "default") = [] ∧
    (reconcileIface sampleGen clSvcFaultNoEx "default" "temperature-sensor").errs =
      [some (Err.transport 7), none] ∧
    (reconcileIface sampleGen clSvcFaultNoEx "default" "temperature-sensor").errs.head? =
      some (some (Err.transport 7)) ∧
    (reconcileIface sampleGen clSvcFaultNoEx "default" "temperature-sensor").retErr =
      some (Err.transport 7) := by
  decide

/-- C4 (amended): when a List call for required shared infrastructure succeeds
with zero items, the nil error value returned by List is appended to the
accumulated error list; in a pass where no other step failed, the error list
is exactly the single nil entry and Reconcile returns a nil error to the
caller (no external retry), with phase set to Failed in memory in the
Exchange and interface-Queue cases, while the event-store case returns before
the phase computation. -/
theorem c4_amended_nilErrorAppended (g : Gen) (s : Cluster) (ns name : String)
    (ti : TwinInterface)
    (hget : lookupFault s.getFaults (ifaceRef ns name) = none)
    (hfind : findIface s ns name = some ti)
    (hsvc : ti.hasService = true)
    (hcf : s.createFaults = []) (hgf : s.getFaults = [])
    (hef : s.listEvQFault = none) (hxf : s.listExFault = none)
    (hqf : s.listQFault = none) :
    (s.queues.filter (matchesEvQ ti.ns) = [] →
      (reconcileIface g s ns name).errs = [none] ∧
      (reconcileIface g s ns name).retErr = none ∧
      (reconcileIface g s ns name).completed = false) ∧
    (s.queues.filter (matchesEvQ ti.ns) ≠ [] →
     s.exchanges.filter (matchesEx ti.ns) = [] →
      (reconcileIface g s ns name).errs = [none] ∧
      (reconcileIface g s ns name).retErr = none ∧
      (reconcileIface g s ns name).iface = some { ti with status := Phase.failed }) ∧
    (s.queues.filter (matchesEvQ ti.ns) ≠ [] →
     s.exchanges.filter (matchesEx ti.ns) ≠ [] →
     s.queues.filter (matchesIfaceQ ti.ns ti.name) = [] →
      (reconcileIface g s ns name).errs = [none] ∧
      (reconcileIface g s ns name).retErr = none ∧
      (reconcileIface g s ns name).iface = some { ti with status := Phase.failed }) := by
  obtain ⟨hE, hSt, -, -, -⟩ := phase1_clean g s ti.toId hcf hgf
  have hQ : (phase1 g s ti.toId).1.queues = s.queues := by rw [hSt]
  have hX : (phase1 g s ti.toId).1.exchanges = s.exchanges := by rw [hSt]
  have hEvF : (phase1 g s ti.toId).1.listEvQFault = none := by rw [hSt]; exact hef
  have hExF : (phase1 g s ti.toId).1.listExFault = none := by rw [hSt]; exact hxf
  have hQF : (phase1 g s ti.toId).1.listQFault = none := by rw [hSt]; exact hqf
  have hRec : reconcileIface g s ns name = createUpdateTwinInterface g s ti := by
    unfold reconcileIface; rw [hget, hfind]
  rw [hRec]
  refine ⟨?_, ?_, ?_⟩
  · intro hev0
    have hred : createUpdateTwinInterface g s ti =
        { state := (phase1 g s ti.toId).1, retErr := none, iface := some ti,
          errs := [none], completed := false, updateCalled := false } := by
      unfold createUpdateTwinInterface
      rw [hsvc, if_pos rfl]
      dsimp only
      unfold resolveAndBind
      dsimp only
      unfold listEvQ
      rw [hEvF]
      dsimp only
      rw [hQ, hev0]
      dsimp only
      rw [hE]
      rfl
    rw [hred]
    exact ⟨rfl, rfl, rfl⟩
  · intro hev hex0
    obtain ⟨q, qs, hq⟩ := List.exists_cons_of_ne_nil hev
    have hred : createUpdateTwinInterface g s ti =
        finishIface (phase1 g s ti.toId).1 ti [none] := by
      unfold createUpdateTwinInterface
      rw [hsvc, if_pos rfl]
      dsimp only
      unfold resolveAndBind
      dsimp only
      unfold listEvQ
      rw [hEvF]
      dsimp only
      rw [hQ, hq]
      dsimp only
      unfold listEx
      rw [hExF]
      dsimp only
      rw [hX, hex0]
      dsimp only
      rw [hE]
      simp
    rw [hred]
    exact ⟨rfl, rfl, rfl⟩
  · intro hev hexne hq0
    obtain ⟨q, qs, hq⟩ := List.exists_cons_of_ne_nil hev
    obtain ⟨x, xs, hx⟩ := List.exists_cons_of_ne_nil hexne
    have hred : createUpdateTwinInterface g s ti =
        finishIface (phase1 g s ti.toId).1 ti [none] := by
      unfold createUpdateTwinInterface
      rw [hsvc, if_pos rfl]
      dsimp only
      unfold resolveAndBind
      dsimp only
      unfold listEvQ
      rw [hEvF]
      dsimp only
      rw [hQ, hq]
      dsimp only
      unfold listEx
      rw [hExF]
      dsimp only
      rw [hX, hx]
      dsimp only
      unfold listIfaceQ
      rw [hQF]
      dsimp only
      rw [hQ, hq0]
      dsimp only
      rw [hE]
      simp
    rw [hred]
    exact ⟨rfl, rfl, rfl⟩

/-- Witness for C4 (amended) at a concrete input: the fault-free cluster with
the event-store Queue present and no default broker Exchange. -/
theorem c4_amended_witness :
    (reconcileIface sampleGen clNoEx "default" "temperature-sensor").errs = [none] ∧
    (reconcileIface sampleGen clNoEx "default" "temperature-sensor").retErr = none ∧
    (reconcileIface sampleGen clNoEx "default" "temperature-sensor").iface =
      some { ti0 with status := Phase.failed } :=
  (c4_amended_nilErrorAppended sampleGen clNoEx "default" "temperature-sensor" ti0
      (by decide) (by decide) (by decide) (by decide) (by decide) (by decide)
      (by decide) (by decide)).2.1 (by decide) (by decide)

/-- C7: invoking the Interface reconciler twice in sequence on the same
request with no external state change between the calls yields an identical
final result: the second run's whole output record (final status object,
returned error, accumulated error list, and cluster state) equals the first
run's, and in particular the count of Binding objects after the second run
equals the count after the first run (no duplicate Bindings). -/
theorem c7_interfaceReconcilerIdempotent (g : Gen) (s : Cluster) (ns name : String) :
    reconcileIface g (reconcileIface g s ns name).state ns name =
      reconcileIface g s ns name ∧
    countBindings (reconcileIface g (reconcileIface g s ns name).state ns name).state =
      countBindings (reconcileIface g s ns name).state :=
  ⟨reconcileIface_idem g s ns name, by rw [reconcileIface_idem g s ns name]⟩

/-- C8: for every create call issued by either reconciler, an already-exists
response is treated as success: on every input whatsoever, the accumulated
error list of a TwinInterface or TwinInstance pass never contains an
AlreadyExists error, and the error returned to the caller is never
AlreadyExists, so such responses can never affect the phase or the returned
error. -/
theorem c8_alreadyExistsIsSuccess (g : Gen) (s : Cluster) (ns name : String) :
    noAE (reconcileIface g s ns name).errs = true ∧
    ((reconcileIface g s ns name).retErr == some Err.alreadyExists) = false ∧
    noAE (reconcileInst g s ns name).errs = true ∧
    ((reconcileInst g s ns name).retErr == some Err.alreadyExists) = false := by
  obtain ⟨h1, h2⟩ := reconcileIface_no_aE g s ns name
  obtain ⟨h3, h4⟩ := reconcileInst_no_aE g s ns name
  refine ⟨?_, ?_, ?_, ?_⟩
  · rw [noAE, List.all_eq_true]
    intro e he
    simpa using h1 e he
  · simpa using h2
  · rw [noAE, List.all_eq_true]
    intro e he
    simpa using h3 e he
  · simpa using h4

/-- C5: when the TwinInstance is fetched but its declared parent TwinInterface
cannot be fetched (an injected Get fault, or — when the Get reaches the store —
the interface is absent, i.e. not-found), the instance reconcile returns a
non-nil error immediately, leaves the whole cluster state (hence the stored
instance's phase and labels) unchanged, creates no binding, and never calls
the status update. -/
theorem c5_parentFetchFailureFatal (g : Gen) (s : Cluster) (ns name : String)
    (inst : TwinInstance)
    (h1 : lookupFault s.getFaults (instRef ns name) = none)
    (h2 : findInst s ns name = some inst)
    (h3 : lookupFault s.getFaults (ifaceRef inst.ns inst.interfaceName) = none →
          findIface s inst.ns inst.interfaceName = none) :
    (reconcileInst g s ns name).retErr.isSome = true ∧
    (reconcileInst g s ns name).state = s ∧
    (reconcileInst g s ns name).updateCalled = false ∧
    (reconcileInst g s ns name).inst = some inst := by
  unfold reconcileInst
  rw [h1, h2]
  dsimp only
  cases hf : lookupFault s.getFaults (ifaceRef inst.ns inst.interfaceName) with
  | some n => exact ⟨rfl, rfl, rfl, rfl⟩
  | none => rw [h3 hf]; exact ⟨rfl, rfl, rfl, rfl⟩

/-- Witness for C5 at a concrete input: the instance `room-1` references
`temperature-sensor`, but the cluster holds no TwinInterface at all. -/
theorem c5_witness :
    (reconcileInst sampleGen clInstNoParent "default" "room-1").retErr.isSome = true ∧
    (reconcileInst sampleGen clInstNoParent "default" "room-1").state = clInstNoParent ∧
    (reconcileInst sampleGen clInstNoParent "default" "room-1").updateCalled = false ∧
    (reconcileInst sampleGen clInstNoParent "default" "room-1").inst = some inst0 :=
  c5_parentFetchFailureFatal sampleGen clInstNoParent "default" "room-1" inst0
    (by decide) (by decide) (fun _ => by decide)

/-- C6: a fetched TwinInterface with no declared compute service accumulates
no error, creates no object at all (the object store is unchanged, so no
Trigger, Service or Binding is created and no List-based dependency
resolution can contribute), and the pass unconditionally sets phase Running,
applies the identity label and calls the status update. -/
theorem c6_noServiceRunsNothing (g : Gen) (s : Cluster) (ns name : String)
    (ti : TwinInterface)
    (hget : lookupFault s.getFaults (ifaceRef ns name) = none)
    (hfind : findIface s ns name = some ti)
    (hsvc : ti.hasService = false) :
    (reconcileIface g s ns name).errs = [] ∧
    (reconcileIface g s ns name).retErr = none ∧
    (reconcileIface g s ns name).completed = true ∧
    (reconcileIface g s ns name).updateCalled = true ∧
    (reconcileIface g s ns name).iface =
      some { ti with status := Phase.running, labels := [(ifaceLabelKey, ti.name)] } ∧
    (reconcileIface g s ns name).state.objs = s.objs := by
  have hred : reconcileIface g s ns name = finishIface s ti [] := by
    unfold reconcileIface
    simp only [hget, hfind]
    unfold createUpdateTwinInterface
    rw [hsvc]
    simp
  rw [hred]
  refine ⟨rfl, rfl, rfl, rfl, rfl, ?_⟩
  simp only [finishIface, updateIface]
  split <;> rfl

/-- Witness for C6 at a concrete input: `temperature-sensor` with
`hasService := false`. -/
theorem c6_witness :
    (reconcileIface sampleGen clNoSvc "default" "temperature-sensor").errs = [] ∧
    (reconcileIface sampleGen clNoSvc "default" "temperature-sensor").retErr = none ∧
    (reconcileIface sampleGen clNoSvc "default" "temperature-sensor").completed = true ∧
    (reconcileIface sampleGen clNoSvc "default" "temperature-sensor").updateCalled = true ∧
    (reconcileIface sampleGen clNoSvc "default" "temperature-sensor").iface =
      some { tiNoSvc with
              status := Phase.running
              labels := [(ifaceLabelKey, tiNoSvc.name)] } ∧
    (reconcileIface sampleGen clNoSvc "default" "temperature-sensor").state.objs =
      clNoSvc.objs :=
  c6_noServiceRunsNothing sampleGen clNoSvc "default" "temperature-sensor" tiNoSvc
    (by decide) (by decide) (by decide)

/-- C9: in both reconcilers, whenever the pass reaches the final status-update
call and that Update fails, the Reconcile entry point still returns a nil
error to its caller, so the delivery mechanism gets no retry signal for the
failed status write. -/
theorem c9_statusUpdateFailureSwallowed (g : Gen) (s : Cluster) (ns name : String)
    (_hfail : s.updateFails = true) :
    ((reconcileIface g s ns name).updateCalled = true →
      (reconcileIface g s ns name).retErr = none) ∧
    ((reconcileInst g s ns name).updateCalled = true →
      (reconcileInst g s ns name).retErr = none) :=
  ⟨reconcileIface_updateCalled_retErr g s ns name,
   reconcileInst_updateCalled_retErr g s ns name⟩

/-- Witness for C9 at concrete inputs where the Update call is reached and
fails in each reconciler. -/
theorem c9_witness :
    clUpdateFail.updateFails = true ∧
    (reconcileIface sampleGen clUpdateFail "default" "temperature-sensor").updateCalled = true ∧
    (reconcileIface sampleGen clUpdateFail "default" "temperature-sensor").retErr = none ∧
    clInstUF.updateFails = true ∧
    (reconcileInst sampleGen clInstUF "default" "room-1").updateCalled = true ∧
    (reconcileInst sampleGen clInstUF "default" "room-1").retErr = none :=
  ⟨by decide, by decide,
   (c9_statusUpdateFailureSwallowed sampleGen clUpdateFail "default" "temperature-sensor"
      (by decide)).1 (by decide),
   by decide, by decide,
   (c9_statusUpdateFailureSwallowed sampleGen clInstUF "default" "room-1"
      (by decide)).2 (by decide)⟩

/-- C10: every pass that reaches the label-and-persist step (the update call)
replaces the entity's whole label map with the single identity entry; for a
TwinInstance the value written is the instance's own metadata name (the
`twinInterfaceName` variable is bound to `twinInstance.ObjectMeta.Name`), not
the referenced parent interface name. -/
theorem c10_labelsReplacedWithOwnName (g : Gen) (s s' : Cluster)
    (ti : TwinInterface) (i : TwinInstance) :
    ((createUpdateTwinInterface g s ti).updateCalled = true →
      (createUpdateTwinInterface g s ti).iface =
        some { ti with status := Phase.running, labels := [(ifaceLabelKey, ti.name)] }) ∧
    ((createUpdateTwinInstance g s' i).updateCalled = true →
      (createUpdateTwinInstance g s' i).inst =
        some { i with status := Phase.running, labels := [(ifaceLabelKey, i.name)] }) := by
  constructor
  · rcases createUpdateIface_out g s ti with ⟨s2, e, E, h⟩ | ⟨s2, E, h⟩
    · rw [h]; intro hc; cases hc
    · rw [h]; exact finishIface_updateCalled_iface s2 ti E
  · rcases createUpdateInst_out g s' i with ⟨s2, E, h⟩
    rw [h]; exact finishInst_updateCalled_inst s2 i E

/-- Witness for C10 at concrete inputs: the interface and the instance both
carry a pre-existing label that is discarded, and the instance's own name
differs from its referenced interface name, yet the written value is the own
name. -/
theorem c10_witness :
    (createUpdateTwinInterface sampleGen clBase ti0).updateCalled = true ∧
    (createUpdateTwinInterface sampleGen clBase ti0).iface =
      some { ti0 with status := Phase.running, labels := [(ifaceLabelKey, ti0.name)] } ∧
    (createUpdateTwinInstance sampleGen clInst inst0).updateCalled = true ∧
    (createUpdateTwinInstance sampleGen clInst inst0).inst =
      some { inst0 with status := Phase.running, labels := [(ifaceLabelKey, inst0.name)] } ∧
    inst0.name ≠ inst0.interfaceName ∧
    ti0.labels ≠ [] ∧ inst0.labels ≠ [] :=
  ⟨by decide,
   (c10_labelsReplacedWithOwnName sampleGen clBase clInst ti0 inst0).1 (by decide),
   by decide,
   (c10_labelsReplacedWithOwnName sampleGen clBase clInst ti0 inst0).2 (by decide),
   by decide, by decide, by decide⟩

end KTwin
